import Mathlib

/-!
Shallow embedding of src/server.py (polynodes-osc-mcp): an MCP server that
validates parameter requests and forwards each one as a single OSC message
(address string plus one float value) to a fixed local UDP destination.

Modelling conventions:
* floats are modelled as rationals (every check in the source is a plain
  comparison against literal bounds, no float arithmetic is performed);
* the pydantic field constraints Field(..., ge=lo, le=hi) become checkRange;
* the field validators (level / param normalization) become validate_level
  and validate_param over an ASCII model of str.lower / str.strip;
* a tool call is a function from the module state (the lazily created
  _osc_client) to Except ValidationError (result, datagrams sent, new state);
  a pydantic validation failure is the .error case and means the tool body
  never ran, so no datagram is emitted and the state is unchanged.
-/

set_option maxRecDepth 8000

/-- Decidable equality of Except results, so that concrete runs of the
embedded tools can be checked by evaluation. -/
instance {ε α : Type} [DecidableEq ε] [DecidableEq α] : DecidableEq (Except ε α) := fun
  | .error e, .error f => decidable_of_iff (e = f) (by simp)
  | .error _, .ok _ => isFalse (by simp)
  | .ok _, .error _ => isFalse (by simp)
  | .ok a, .ok b => decidable_of_iff (a = b) (by simp)

/-- ASCII model of Python str.lower: lower-case every character. -/
def pyLower (s : String) : String := ⟨s.data.map Char.toLower⟩

/-- Model of Python str.strip: drop leading and trailing whitespace. -/
def pyStrip (s : String) : String :=
  ⟨((s.data.dropWhile Char.isWhitespace).reverse.dropWhile Char.isWhitespace).reverse⟩

/-- A validation failure raised before a tool body runs (pydantic / FastMCP
in the source): a numeric bound violation carrying the received value and
both bounds of the declared closed interval, or a scope token outside the
enumerated set. -/
inductive ValidationError where
  | outOfRange (received lo hi : ℚ)
  | invalidScope (msg : String)
deriving DecidableEq

/-- Numeric field constraint Field(..., ge=lo, le=hi): the closed interval
[lo, hi], both endpoints accepted. -/
def checkRange (v lo hi : ℚ) : Except ValidationError ℚ :=
  if lo ≤ v ∧ v ≤ hi then .ok v else .error (.outOfRange v lo hi)

/-- Integer field constraint Field(..., ge=lo, le=hi) (the cuboid index). -/
def checkRangeInt (v lo hi : Int) : Except ValidationError Int :=
  if lo ≤ v ∧ v ≤ hi then .ok v else .error (.outOfRange (v : ℚ) (lo : ℚ) (hi : ℚ))

/-- The enumerated macro/meso/micro scope key of the per-layer operations. -/
inductive Level where
  | macroLvl
  | mesoLvl
  | microLvl
deriving DecidableEq, Fintype

/-- String token of a layer scope key. -/
def levelToken : Level → String
  | .macroLvl => "macro"
  | .mesoLvl => "meso"
  | .microLvl => "micro"

def levelMsg : String := "level must be macro, meso, or micro"

/-- The validate_level field validator shared by the per-layer input models:
v.lower().strip(), then membership in the enumerated set. -/
def validate_level (v : String) : Except ValidationError Level :=
  let w := pyStrip (pyLower v)
  if w = "macro" then .ok .macroLvl
  else if w = "meso" then .ok .mesoLvl
  else if w = "micro" then .ok .microLvl
  else .error (.invalidScope levelMsg)

/-- The enumerated freq/amp/res target of the isomorphic-modulation tools. -/
inductive IParam where
  | freq
  | amp
  | res
deriving DecidableEq, Fintype

def paramMsg : String := "param must be freq, amp, or res"

/-- The validate_param field validator of IsomorphModInput (and the inline
normalization of polynodes_isomorph_mod_switch): v.lower().strip(), then
membership in the enumerated set. -/
def validate_param (v : String) : Except ValidationError IParam :=
  let w := pyStrip (pyLower v)
  if w = "freq" then .ok .freq
  else if w = "amp" then .ok .amp
  else if w = "res" then .ok .res
  else .error (.invalidScope paramMsg)

def DEFAULT_HOST : String := "127.0.0.1"

def DEFAULT_PORT : Nat := 4799

/-- The SimpleUDPClient handle: the destination it was created with. -/
structure Client where
  host : String
  port : Nat
deriving DecidableEq

/-- The module-level _osc_client variable: none until the first send. -/
abbrev ServerState := Option Client

/-- _get_client from the source: return the cached client if one exists
(ignoring the host and port arguments), otherwise create one from the
given host and port and cache it.  The source only ever calls it with the
defaults. -/
def get_client (st : ServerState) (host : String) (port : Nat) : Client × ServerState :=
  match st with
  | some c => (c, some c)
  | none => (⟨host, port⟩, some ⟨host, port⟩)

/-- The structured acknowledgment json.dumps produces in _send_osc. -/
structure SendAck where
  status : String
  address : String
  value : ℚ
deriving DecidableEq

/-- One datagram handed to the transport: the client that sent it and the
(address, value) payload of the OSC message. -/
structure Datagram where
  client : Client
  address : String
  value : ℚ
deriving DecidableEq

/-- What a tool call returns to the caller on success: a sent-acknowledgment,
the backward-compatible error payload of the isomorphic target switch, or
the read-only address listing. -/
inductive ToolResult where
  | sent (ack : SendAck)
  | errorPayload (msg : String)
  | addressList (groups : List (String × List (String × String)))
deriving DecidableEq

abbrev ToolOutput := ToolResult × List Datagram × ServerState

/-- _send_osc from the source: obtain the shared client (created with the
default host and port on first use), send one message through it, and
return the acknowledgment. -/
def send_osc (st : ServerState) (address : String) (value : ℚ) : ToolOutput :=
  let p := get_client st DEFAULT_HOST DEFAULT_PORT
  (.sent ⟨"sent", address, value⟩, [⟨p.1, address, value⟩], p.2)

/-- The client _send_osc would use from a given state. -/
def clientOf (st : ServerState) : Client := (get_client st DEFAULT_HOST DEFAULT_PORT).1

/-! ### Input models

Each pydantic model of the source becomes a validate function from the raw
tool arguments to the validated field values.  String fields are stripped
first (ConfigDict str_strip_whitespace=True), fields are checked in
declaration order, and the first failure aborts the call. -/

/-- PlayStopInput: state in [0, 1]. -/
def PlayStopInput.validate (state : ℚ) : Except ValidationError ℚ :=
  checkRange state 0 1

/-- PresetSlotInput: slot in [1, 10]. -/
def PresetSlotInput.validate (slot : ℚ) : Except ValidationError ℚ :=
  checkRange slot 1 10

/-- GainInput: level in the layer set, value in [-80, 20]. -/
structure GainInput where
  level : Level
  value : ℚ

def GainInput.validate (level : String) (value : ℚ) : Except ValidationError GainInput :=
  match validate_level (pyStrip level) with
  | .error e => .error e
  | .ok l =>
    match checkRange value (-80) 20 with
    | .error e => .error e
    | .ok v => .ok ⟨l, v⟩

/-- DryWetInput: value in [0, 1]. -/
def DryWetInput.validate (value : ℚ) : Except ValidationError ℚ :=
  checkRange value 0 1

/-- EnvelopeTimeInput: level in the layer set, value in [0.01, 0.5]. -/
structure EnvelopeTimeInput where
  level : Level
  value : ℚ

def EnvelopeTimeInput.validate (level : String) (value : ℚ) :
    Except ValidationError EnvelopeTimeInput :=
  match validate_level (pyStrip level) with
  | .error e => .error e
  | .ok l =>
    match checkRange value (mkRat 1 100) (mkRat 1 2) with
    | .error e => .error e
    | .ok v => .ok ⟨l, v⟩

/-- PlaybackRateInput: level in the layer set; the value field declares no
numeric constraint (its docstring documents 0.3-10 / 0.3-20 / 0.3-30 but
the Field carries no ge/le). -/
structure PlaybackRateInput where
  level : Level
  value : ℚ

def PlaybackRateInput.validate (level : String) (value : ℚ) :
    Except ValidationError PlaybackRateInput :=
  match validate_level (pyStrip level) with
  | .error e => .error e
  | .ok l => .ok ⟨l, value⟩

/-- PlaybackRateMRInput: level in the layer set, value in [0, 0.75]. -/
structure PlaybackRateMRInput where
  level : Level
  value : ℚ

def PlaybackRateMRInput.validate (level : String) (value : ℚ) :
    Except ValidationError PlaybackRateMRInput :=
  match validate_level (pyStrip level) with
  | .error e => .error e
  | .ok l =>
    match checkRange value 0 (mkRat 3 4) with
    | .error e => .error e
    | .ok v => .ok ⟨l, v⟩

/-- SwitchInput: state in [0, 1]. -/
def SwitchInput.validate (state : ℚ) : Except ValidationError ℚ :=
  checkRange state 0 1

/-- GranularDurationInput: value in [10, 1000]. -/
def GranularDurationInput.validate (value : ℚ) : Except ValidationError ℚ :=
  checkRange value 10 1000

/-- GranularDurationMRInput: value in [0, 0.75]. -/
def GranularDurationMRInput.validate (value : ℚ) : Except ValidationError ℚ :=
  checkRange value 0 (mkRat 3 4)

/-- FilterInput: level in the layer set, value in [80, 8000]. -/
structure FilterInput where
  level : Level
  value : ℚ

def FilterInput.validate (level : String) (value : ℚ) : Except ValidationError FilterInput :=
  match validate_level (pyStrip level) with
  | .error e => .error e
  | .ok l =>
    match checkRange value 80 8000 with
    | .error e => .error e
    | .ok v => .ok ⟨l, v⟩

/-- FilterMRInput: level in the layer set, value in [0, 0.75]. -/
structure FilterMRInput where
  level : Level
  value : ℚ

def FilterMRInput.validate (level : String) (value : ℚ) :
    Except ValidationError FilterMRInput :=
  match validate_level (pyStrip level) with
  | .error e => .error e
  | .ok l =>
    match checkRange value 0 (mkRat 3 4) with
    | .error e => .error e
    | .ok v => .ok ⟨l, v⟩

/-- FilterSwitchInput: level in the layer set, state in [0, 1]. -/
structure FilterSwitchInput where
  level : Level
  state : ℚ

def FilterSwitchInput.validate (level : String) (state : ℚ) :
    Except ValidationError FilterSwitchInput :=
  match validate_level (pyStrip level) with
  | .error e => .error e
  | .ok l =>
    match checkRange state 0 1 with
    | .error e => .error e
    | .ok s => .ok ⟨l, s⟩

/-- CombInput: level in the layer set; the value field declares no numeric
constraint (its docstring documents 10-3000 / 10-1000 / 10-300 but the
Field carries no ge/le). -/
structure CombInput where
  level : Level
  value : ℚ

def CombInput.validate (level : String) (value : ℚ) : Except ValidationError CombInput :=
  match validate_level (pyStrip level) with
  | .error e => .error e
  | .ok l => .ok ⟨l, value⟩

/-- CombMRInput: level in the layer set, value in [0, 0.75]. -/
structure CombMRInput where
  level : Level
  value : ℚ

def CombMRInput.validate (level : String) (value : ℚ) : Except ValidationError CombMRInput :=
  match validate_level (pyStrip level) with
  | .error e => .error e
  | .ok l =>
    match checkRange value 0 (mkRat 3 4) with
    | .error e => .error e
    | .ok v => .ok ⟨l, v⟩

/-- CombSwitchInput: level in the layer set, state in [0, 1]. -/
structure CombSwitchInput where
  level : Level
  state : ℚ

def CombSwitchInput.validate (level : String) (state : ℚ) :
    Except ValidationError CombSwitchInput :=
  match validate_level (pyStrip level) with
  | .error e => .error e
  | .ok l =>
    match checkRange state 0 1 with
    | .error e => .error e
    | .ok s => .ok ⟨l, s⟩

/-- ForceInput: level in the layer set, value in [0, 1]. -/
structure ForceInput where
  level : Level
  value : ℚ

def ForceInput.validate (level : String) (value : ℚ) : Except ValidationError ForceInput :=
  match validate_level (pyStrip level) with
  | .error e => .error e
  | .ok l =>
    match checkRange value 0 1 with
    | .error e => .error e
    | .ok v => .ok ⟨l, v⟩

/-- RingModInput: level in the layer set, value in [1, 3]. -/
structure RingModInput where
  level : Level
  value : ℚ

def RingModInput.validate (level : String) (value : ℚ) : Except ValidationError RingModInput :=
  match validate_level (pyStrip level) with
  | .error e => .error e
  | .ok l =>
    match checkRange value 1 3 with
    | .error e => .error e
    | .ok v => .ok ⟨l, v⟩

/-- CubeReturnInput: level in the layer set, value in [1, 80]. -/
structure CubeReturnInput where
  level : Level
  value : ℚ

def CubeReturnInput.validate (level : String) (value : ℚ) :
    Except ValidationError CubeReturnInput :=
  match validate_level (pyStrip level) with
  | .error e => .error e
  | .ok l =>
    match checkRange value 1 80 with
    | .error e => .error e
    | .ok v => .ok ⟨l, v⟩

/-- GainSoloInput: level in the layer set, state in [0, 1]. -/
structure GainSoloInput where
  level : Level
  state : ℚ

def GainSoloInput.validate (level : String) (state : ℚ) :
    Except ValidationError GainSoloInput :=
  match validate_level (pyStrip level) with
  | .error e => .error e
  | .ok l =>
    match checkRange state 0 1 with
    | .error e => .error e
    | .ok s => .ok ⟨l, s⟩

/-- CrushBitInput: value in [0, 1]. -/
def CrushBitInput.validate (value : ℚ) : Except ValidationError ℚ :=
  checkRange value 0 1

/-- CrushRangeInput: value in [0, 5]. -/
def CrushRangeInput.validate (value : ℚ) : Except ValidationError ℚ :=
  checkRange value 0 5

/-- ResonatorFreqDistInput: value in [1, 3]. -/
def ResonatorFreqDistInput.validate (value : ℚ) : Except ValidationError ℚ :=
  checkRange value 1 3

/-- ResonatorBalanceInput: value in [0, 0.5]. -/
def ResonatorBalanceInput.validate (value : ℚ) : Except ValidationError ℚ :=
  checkRange value 0 (mkRat 1 2)

/-- IsomorphModInput: param in the freq/amp/res set, value in [0, 2]. -/
structure IsomorphModInput where
  param : IParam
  value : ℚ

def IsomorphModInput.validate (param : String) (value : ℚ) :
    Except ValidationError IsomorphModInput :=
  match validate_param (pyStrip param) with
  | .error e => .error e
  | .ok p =>
    match checkRange value 0 2 with
    | .error e => .error e
    | .ok v => .ok ⟨p, v⟩

/-- IsomorphBPCenterInput: value in [0, 5000]. -/
def IsomorphBPCenterInput.validate (value : ℚ) : Except ValidationError ℚ :=
  checkRange value 0 5000

/-- CameraZoomInput: unrestricted float. -/
def CameraZoomInput.validate (value : ℚ) : Except ValidationError ℚ := .ok value

/-- CameraRotateInput: unrestricted float. -/
def CameraRotateInput.validate (value : ℚ) : Except ValidationError ℚ := .ok value

/-- BPMInput: value in [10, 300]. -/
def BPMInput.validate (value : ℚ) : Except ValidationError ℚ :=
  checkRange value 10 300

/-- Validation of the two direct parameters of polynodes_cuboid_switch:
cube in [1, 3] (int), then state in [0, 1]. -/
def CuboidArgs.validate (cube : Int) (state : ℚ) : Except ValidationError (Int × ℚ) :=
  match checkRangeInt cube 1 3 with
  | .error e => .error e
  | .ok c =>
    match checkRange state 0 1 with
    | .error e => .error e
    | .ok s => .ok (c, s)

/-! ### Address maps and tools

Each @mcp.tool function of the source becomes a function from the module
state and the raw arguments to Except ValidationError ToolOutput.  The
addr_map dictionaries become total functions on the validated scope key. -/

def gain_addr_map : Level → String
  | .macroLvl => "/polynodes/MacroGain"
  | .mesoLvl => "/polynodes/MesoGain"
  | .microLvl => "/polynodes/MicroGain"

def gain_solo_addr_map : Level → String
  | .macroLvl => "/polynodes/MacroGainsolo"
  | .mesoLvl => "/polynodes/MesoGainsolo"
  | .microLvl => "/polynodes/MicroGainsolo"

def envelope_addr_map : Level → String
  | .macroLvl => "/polynodes/MacroEnvtime"
  | .mesoLvl => "/polynodes/MesoEnvtime"
  | .microLvl => "/polynodes/MicroEnvtime"

def pbr_addr_map : Level → String
  | .macroLvl => "/polynodes/pbrmacro"
  | .mesoLvl => "/polynodes/pbrmeso"
  | .microLvl => "/polynodes/pbrmicro"

def pbr_mr_addr_map : Level → String
  | .macroLvl => "/polynodes/pbrmacroMR"
  | .mesoLvl => "/polynodes/pbrmesoMR"
  | .microLvl => "/polynodes/pbrmicroMR"

def filter_sw_addr_map : Level → String
  | .macroLvl => "/polynodes/filtmacrosw"
  | .mesoLvl => "/polynodes/filtmesosw"
  | .microLvl => "/polynodes/filtmicrosw"

def filter_addr_map : Level → String
  | .macroLvl => "/polynodes/filtmacro"
  | .mesoLvl => "/polynodes/filtmeso"
  | .microLvl => "/polynodes/filtmicro"

def filter_mr_addr_map : Level → String
  | .macroLvl => "/polynodes/filtmacroMR"
  | .mesoLvl => "/polynodes/filtmesoMR"
  | .microLvl => "/polynodes/filtmicroMR"

def comb_sw_addr_map : Level → String
  | .macroLvl => "/polynodes/combmacrosw"
  | .mesoLvl => "/polynodes/combmesosw"
  | .microLvl => "/polynodes/combmicrosw"

def comb_addr_map : Level → String
  | .macroLvl => "/polynodes/combmacro"
  | .mesoLvl => "/polynodes/combmeso"
  | .microLvl => "/polynodes/combmicro"

def comb_mr_addr_map : Level → String
  | .macroLvl => "/polynodes/combmacroMR"
  | .mesoLvl => "/polynodes/combmesoMR"
  | .microLvl => "/polynodes/combmicroMR"

def bh_force_addr_map : Level → String
  | .macroLvl => "/polynodes/BHmacroforce"
  | .mesoLvl => "/polynodes/BHmesoforce"
  | .microLvl => "/polynodes/BHmicroforce"

def wh_force_addr_map : Level → String
  | .macroLvl => "/polynodes/WHmacroforce"
  | .mesoLvl => "/polynodes/WHmesoforce"
  | .microLvl => "/polynodes/WHmicroforce"

def rm_addr_map : Level → String
  | .macroLvl => "/polynodes/RMmacro"
  | .mesoLvl => "/polynodes/RMmeso"
  | .microLvl => "/polynodes/RMmicro"

def cube_return_addr_map : Level → String
  | .macroLvl => "/polynodes/MacroreturnLvl"
  | .mesoLvl => "/polynodes/MesoreturnLvl"
  | .microLvl => "/polynodes/MicroreturnLvl"

def isom_sw_addr_map : IParam → String
  | .freq => "/polynodes/isomfreqsw"
  | .amp => "/polynodes/isomampsw"
  | .res => "/polynodes/isomressw"

def isom_modr_addr_map : IParam → String
  | .freq => "/polynodes/isomfreqmodr"
  | .amp => "/polynodes/isomampmodr"
  | .res => "/polynodes/isomresmodr"

/-- The f-string address of polynodes_cuboid_switch. -/
def cuboid_addr (cube : Int) : String := "/polynodes/C" ++ toString cube ++ "sw"

def polynodes_play_stop (st : ServerState) (state : ℚ) : Except ValidationError ToolOutput :=
  match PlayStopInput.validate state with
  | .error e => .error e
  | .ok s => .ok (send_osc st "/polynodes/playstartstop" s)

def polynodes_preset_slot (st : ServerState) (slot : ℚ) : Except ValidationError ToolOutput :=
  match PresetSlotInput.validate slot with
  | .error e => .error e
  | .ok s => .ok (send_osc st "/polynodes/presetslot" s)

def polynodes_set_gain (st : ServerState) (level : String) (value : ℚ) :
    Except ValidationError ToolOutput :=
  match GainInput.validate level value with
  | .error e => .error e
  | .ok p => .ok (send_osc st (gain_addr_map p.level) p.value)

def polynodes_set_dry_wet (st : ServerState) (value : ℚ) : Except ValidationError ToolOutput :=
  match DryWetInput.validate value with
  | .error e => .error e
  | .ok v => .ok (send_osc st "/polynodes/DryWet" v)

def polynodes_gain_solo (st : ServerState) (level : String) (state : ℚ) :
    Except ValidationError ToolOutput :=
  match GainSoloInput.validate level state with
  | .error e => .error e
  | .ok p => .ok (send_osc st (gain_solo_addr_map p.level) p.state)

def polynodes_set_envelope_time (st : ServerState) (level : String) (value : ℚ) :
    Except ValidationError ToolOutput :=
  match EnvelopeTimeInput.validate level value with
  | .error e => .error e
  | .ok p => .ok (send_osc st (envelope_addr_map p.level) p.value)

def polynodes_set_playback_rate (st : ServerState) (level : String) (value : ℚ) :
    Except ValidationError ToolOutput :=
  match PlaybackRateInput.validate level value with
  | .error e => .error e
  | .ok p => .ok (send_osc st (pbr_addr_map p.level) p.value)

def polynodes_set_playback_rate_mod_range (st : ServerState) (level : String) (value : ℚ) :
    Except ValidationError ToolOutput :=
  match PlaybackRateMRInput.validate level value with
  | .error e => .error e
  | .ok p => .ok (send_osc st (pbr_mr_addr_map p.level) p.value)

def polynodes_granular_switch (st : ServerState) (state : ℚ) :
    Except ValidationError ToolOutput :=
  match SwitchInput.validate state with
  | .error e => .error e
  | .ok s => .ok (send_osc st "/polynodes/granusw" s)

def polynodes_granular_duration (st : ServerState) (value : ℚ) :
    Except ValidationError ToolOutput :=
  match GranularDurationInput.validate value with
  | .error e => .error e
  | .ok v => .ok (send_osc st "/polynodes/granuDur" v)

def polynodes_granular_duration_mod_range (st : ServerState) (value : ℚ) :
    Except ValidationError ToolOutput :=
  match GranularDurationMRInput.validate value with
  | .error e => .error e
  | .ok v => .ok (send_osc st "/polynodes/granuDurMR" v)

def polynodes_filter_switch (st : ServerState) (level : String) (state : ℚ) :
    Except ValidationError ToolOutput :=
  match FilterSwitchInput.validate level state with
  | .error e => .error e
  | .ok p => .ok (send_osc st (filter_sw_addr_map p.level) p.state)

def polynodes_set_filter_freq (st : ServerState) (level : String) (value : ℚ) :
    Except ValidationError ToolOutput :=
  match FilterInput.validate level value with
  | .error e => .error e
  | .ok p => .ok (send_osc st (filter_addr_map p.level) p.value)

def polynodes_set_filter_mod_range (st : ServerState) (level : String) (value : ℚ) :
    Except ValidationError ToolOutput :=
  match FilterMRInput.validate level value with
  | .error e => .error e
  | .ok p => .ok (send_osc st (filter_mr_addr_map p.level) p.value)

def polynodes_comb_switch (st : ServerState) (level : String) (state : ℚ) :
    Except ValidationError ToolOutput :=
  match CombSwitchInput.validate level state with
  | .error e => .error e
  | .ok p => .ok (send_osc st (comb_sw_addr_map p.level) p.state)

def polynodes_set_comb_delay (st : ServerState) (level : String) (value : ℚ) :
    Except ValidationError ToolOutput :=
  match CombInput.validate level value with
  | .error e => .error e
  | .ok p => .ok (send_osc st (comb_addr_map p.level) p.value)

def polynodes_set_comb_mod_range (st : ServerState) (level : String) (value : ℚ) :
    Except ValidationError ToolOutput :=
  match CombMRInput.validate level value with
  | .error e => .error e
  | .ok p => .ok (send_osc st (comb_mr_addr_map p.level) p.value)

def polynodes_blackhole_switch (st : ServerState) (state : ℚ) :
    Except ValidationError ToolOutput :=
  match SwitchInput.validate state with
  | .error e => .error e
  | .ok s => .ok (send_osc st "/polynodes/BHsw" s)

def polynodes_blackhole_force (st : ServerState) (level : String) (value : ℚ) :
    Except ValidationError ToolOutput :=
  match ForceInput.validate level value with
  | .error e => .error e
  | .ok p => .ok (send_osc st (bh_force_addr_map p.level) p.value)

def polynodes_whitehole_switch (st : ServerState) (state : ℚ) :
    Except ValidationError ToolOutput :=
  match SwitchInput.validate state with
  | .error e => .error e
  | .ok s => .ok (send_osc st "/polynodes/WHsw" s)

def polynodes_whitehole_force (st : ServerState) (level : String) (value : ℚ) :
    Except ValidationError ToolOutput :=
  match ForceInput.validate level value with
  | .error e => .error e
  | .ok p => .ok (send_osc st (wh_force_addr_map p.level) p.value)

def polynodes_ringmod_switch (st : ServerState) (state : ℚ) :
    Except ValidationError ToolOutput :=
  match SwitchInput.validate state with
  | .error e => .error e
  | .ok s => .ok (send_osc st "/polynodes/RMsw" s)

def polynodes_ringmod_freq (st : ServerState) (level : String) (value : ℚ) :
    Except ValidationError ToolOutput :=
  match RingModInput.validate level value with
  | .error e => .error e
  | .ok p => .ok (send_osc st (rm_addr_map p.level) p.value)

def polynodes_crush_switch (st : ServerState) (state : ℚ) :
    Except ValidationError ToolOutput :=
  match SwitchInput.validate state with
  | .error e => .error e
  | .ok s => .ok (send_osc st "/polynodes/CRSsw" s)

def polynodes_crush_bit_level (st : ServerState) (value : ℚ) :
    Except ValidationError ToolOutput :=
  match CrushBitInput.validate value with
  | .error e => .error e
  | .ok v => .ok (send_osc st "/polynodes/CRSbitLvl" v)

def polynodes_crush_range (st : ServerState) (value : ℚ) :
    Except ValidationError ToolOutput :=
  match CrushRangeInput.validate value with
  | .error e => .error e
  | .ok v => .ok (send_osc st "/polynodes/CRSrange" v)

def polynodes_resonator_switch (st : ServerState) (state : ℚ) :
    Except ValidationError ToolOutput :=
  match SwitchInput.validate state with
  | .error e => .error e
  | .ok s => .ok (send_osc st "/polynodes/ResoSw" s)

def polynodes_resonator_freq_dist (st : ServerState) (value : ℚ) :
    Except ValidationError ToolOutput :=
  match ResonatorFreqDistInput.validate value with
  | .error e => .error e
  | .ok v => .ok (send_osc st "/polynodes/ResoFreqdist" v)

def polynodes_resonator_balance (st : ServerState) (value : ℚ) :
    Except ValidationError ToolOutput :=
  match ResonatorBalanceInput.validate value with
  | .error e => .error e
  | .ok v => .ok (send_osc st "/polynodes/ResoBalance" v)

def polynodes_cuboid_switch (st : ServerState) (cube : Int) (state : ℚ) :
    Except ValidationError ToolOutput :=
  match CuboidArgs.validate cube state with
  | .error e => .error e
  | .ok p => .ok (send_osc st (cuboid_addr p.1) p.2)

def polynodes_cuboid_return_level (st : ServerState) (level : String) (value : ℚ) :
    Except ValidationError ToolOutput :=
  match CubeReturnInput.validate level value with
  | .error e => .error e
  | .ok p => .ok (send_osc st (cube_return_addr_map p.level) p.value)

def polynodes_isomorph_switch (st : ServerState) (state : ℚ) :
    Except ValidationError ToolOutput :=
  match SwitchInput.validate state with
  | .error e => .error e
  | .ok s => .ok (send_osc st "/polynodes/isomorphsw" s)

/-- polynodes_isomorph_mod_switch: state is range-checked up front, but the
param token is checked inside the body, and an unknown token produces the
json error payload as a normal return (no exception, nothing sent). -/
def polynodes_isomorph_mod_switch (st : ServerState) (param : String) (state : ℚ) :
    Except ValidationError ToolOutput :=
  match checkRange state 0 1 with
  | .error e => .error e
  | .ok s =>
    match validate_param param with
    | .error _ => .ok (.errorPayload paramMsg, [], st)
    | .ok p => .ok (send_osc st (isom_sw_addr_map p) s)

def polynodes_isomorph_mod_depth (st : ServerState) (param : String) (value : ℚ) :
    Except ValidationError ToolOutput :=
  match IsomorphModInput.validate param value with
  | .error e => .error e
  | .ok p => .ok (send_osc st (isom_modr_addr_map p.param) p.value)

def polynodes_isomorph_bp_center (st : ServerState) (value : ℚ) :
    Except ValidationError ToolOutput :=
  match IsomorphBPCenterInput.validate value with
  | .error e => .error e
  | .ok v => .ok (send_osc st "/polynodes/isombpcent" v)

def polynodes_navigation_random_trigger (st : ServerState) (state : ℚ) :
    Except ValidationError ToolOutput :=
  match SwitchInput.validate state with
  | .error e => .error e
  | .ok s => .ok (send_osc st "/polynodes/navigrndtrig" s)

def polynodes_rearrange_trigger (st : ServerState) (state : ℚ) :
    Except ValidationError ToolOutput :=
  match SwitchInput.validate state with
  | .error e => .error e
  | .ok s => .ok (send_osc st "/polynodes/rearrtrig" s)

def polynodes_poly_gates_switch (st : ServerState) (state : ℚ) :
    Except ValidationError ToolOutput :=
  match SwitchInput.validate state with
  | .error e => .error e
  | .ok s => .ok (send_osc st "/polynodes/polygatessw" s)

def polynodes_tuning_pb_switch (st : ServerState) (state : ℚ) :
    Except ValidationError ToolOutput :=
  match SwitchInput.validate state with
  | .error e => .error e
  | .ok s => .ok (send_osc st "/polynodes/tuningpbsw" s)

def polynodes_tuning_res_switch (st : ServerState) (state : ℚ) :
    Except ValidationError ToolOutput :=
  match SwitchInput.validate state with
  | .error e => .error e
  | .ok s => .ok (send_osc st "/polynodes/tuningressw" s)

def polynodes_camera_zoom (st : ServerState) (value : ℚ) :
    Except ValidationError ToolOutput :=
  match CameraZoomInput.validate value with
  | .error e => .error e
  | .ok v => .ok (send_osc st "/polynodes/camzoom" v)

def polynodes_camera_rotate (st : ServerState) (value : ℚ) :
    Except ValidationError ToolOutput :=
  match CameraRotateInput.validate value with
  | .error e => .error e
  | .ok v => .ok (send_osc st "/polynodes/camrotate" v)

def polynodes_set_bpm (st : ServerState) (value : ℚ) :
    Except ValidationError ToolOutput :=
  match BPMInput.validate value with
  | .error e => .error e
  | .ok v => .ok (send_osc st "/polynodes/seqbpm" v)

/-- The addresses dictionary of polynodes_list_osc_addresses, verbatim:
category key, then (address, description) entries. -/
def osc_addresses : List (String × List (String × String)) :=
  [("transport",
    [("/polynodes/playstartstop", "Play/Stop (0.0 or 1.0)"),
     ("/polynodes/presetslot", "Preset Slot (1-10)"),
     ("/polynodes/seqbpm", "BPM (10-300)")]),
   ("gain",
    [("/polynodes/MacroGain", "Macro Gain dB (-80 to 20)"),
     ("/polynodes/MesoGain", "Meso Gain dB (-80 to 20)"),
     ("/polynodes/MicroGain", "Micro Gain dB (-80 to 20)"),
     ("/polynodes/DryWet", "Dry/Wet (0.0-1.0)"),
     ("/polynodes/MacroGainsolo", "Macro Solo (0/1)"),
     ("/polynodes/MesoGainsolo", "Meso Solo (0/1)"),
     ("/polynodes/MicroGainsolo", "Micro Solo (0/1)")]),
   ("envelope",
    [("/polynodes/MacroEnvtime", "Macro Env Time (0.01-0.5)"),
     ("/polynodes/MesoEnvtime", "Meso Env Time (0.01-0.5)"),
     ("/polynodes/MicroEnvtime", "Micro Env Time (0.01-0.5)")]),
   ("playback_rate",
    [("/polynodes/pbrmacro", "Macro PBR (0.3-10)"),
     ("/polynodes/pbrmeso", "Meso PBR (0.3-20)"),
     ("/polynodes/pbrmicro", "Micro PBR (0.3-30)"),
     ("/polynodes/pbrmacroMR", "Macro PBR ModRange (0-0.75)"),
     ("/polynodes/pbrmesoMR", "Meso PBR ModRange (0-0.75)"),
     ("/polynodes/pbrmicroMR", "Micro PBR ModRange (0-0.75)")]),
   ("granulator",
    [("/polynodes/granusw", "Granulator Switch (0/1)"),
     ("/polynodes/granuDur", "Duration (10-1000)"),
     ("/polynodes/granuDurMR", "Duration ModRange (0-0.75)")]),
   ("bandpass_filter",
    [("/polynodes/filtmacrosw", "Macro Filter Switch (0/1)"),
     ("/polynodes/filtmesosw", "Meso Filter Switch (0/1)"),
     ("/polynodes/filtmicrosw", "Micro Filter Switch (0/1)"),
     ("/polynodes/filtmacro", "Macro Freq (80-8000)"),
     ("/polynodes/filtmeso", "Meso Freq (80-8000)"),
     ("/polynodes/filtmicro", "Micro Freq (80-8000)"),
     ("/polynodes/filtmacroMR", "Macro Filter ModRange (0-0.75)"),
     ("/polynodes/filtmesoMR", "Meso Filter ModRange (0-0.75)"),
     ("/polynodes/filtmicroMR", "Micro Filter ModRange (0-0.75)")]),
   ("comb_filter",
    [("/polynodes/combmacrosw", "Macro Comb Switch (0/1)"),
     ("/polynodes/combmesosw", "Meso Comb Switch (0/1)"),
     ("/polynodes/combmicrosw", "Micro Comb Switch (0/1)"),
     ("/polynodes/combmacro", "Macro Comb (10-3000)"),
     ("/polynodes/combmeso", "Meso Comb (10-1000)"),
     ("/polynodes/combmicro", "Micro Comb (10-300)"),
     ("/polynodes/combmacroMR", "Macro Comb ModRange (0-0.75)"),
     ("/polynodes/combmesoMR", "Meso Comb ModRange (0-0.75)"),
     ("/polynodes/combmicroMR", "Micro Comb ModRange (0-0.75)")]),
   ("blackhole",
    [("/polynodes/BHsw", "BH Switch (0/1)"),
     ("/polynodes/BHmacroforce", "BH Macro Force (0-1)"),
     ("/polynodes/BHmesoforce", "BH Meso Force (0-1)"),
     ("/polynodes/BHmicroforce", "BH Micro Force (0-1)")]),
   ("whitehole",
    [("/polynodes/WHsw", "WH Switch (0/1)"),
     ("/polynodes/WHmacroforce", "WH Macro Force (0-1)"),
     ("/polynodes/WHmesoforce", "WH Meso Force (0-1)"),
     ("/polynodes/WHmicroforce", "WH Micro Force (0-1)")]),
   ("ring_modulator",
    [("/polynodes/RMsw", "RM Switch (0/1)"),
     ("/polynodes/RMmacro", "RM Macro (1-3)"),
     ("/polynodes/RMmeso", "RM Meso (1-3)"),
     ("/polynodes/RMmicro", "RM Micro (1-3)")]),
   ("bitcrusher",
    [("/polynodes/CRSsw", "Crush Switch (0/1)"),
     ("/polynodes/CRSbitLvl", "Bit Level (0-1)"),
     ("/polynodes/CRSrange", "Range (0-5)")]),
   ("resonator",
    [("/polynodes/ResoSw", "Resonator Switch (0/1)"),
     ("/polynodes/ResoFreqdist", "Freq Distribution (1-3)"),
     ("/polynodes/ResoBalance", "Balance (0-0.5)")]),
   ("cuboid_fx",
    [("/polynodes/C1sw", "Cuboid 1 Switch (0/1)"),
     ("/polynodes/C2sw", "Cuboid 2 Switch (0/1)"),
     ("/polynodes/C3sw", "Cuboid 3 Switch (0/1)"),
     ("/polynodes/MacroreturnLvl", "Macro Return (1-80)"),
     ("/polynodes/MesoreturnLvl", "Meso Return (1-80)"),
     ("/polynodes/MicroreturnLvl", "Micro Return (1-80)")]),
   ("isomorph",
    [("/polynodes/isomorphsw", "IsoMorph Switch (0/1)"),
     ("/polynodes/isomfreqsw", "Freq Mod Switch (0/1)"),
     ("/polynodes/isomfreqmodr", "Freq Mod Depth (0-2)"),
     ("/polynodes/isomampsw", "Amp Mod Switch (0/1)"),
     ("/polynodes/isomampmodr", "Amp Mod Depth (0-2)"),
     ("/polynodes/isomressw", "Res Mod Switch (0/1)"),
     ("/polynodes/isomresmodr", "Res Mod Depth (0-2)"),
     ("/polynodes/isombpcent", "BP Center (0-5000)")]),
   ("navigation",
    [("/polynodes/navigrndtrig", "Nav Random Trigger (0/1)"),
     ("/polynodes/rearrtrig", "Rearrange Trigger (0/1)"),
     ("/polynodes/polygatessw", "Poly Gates Switch (0/1)")]),
   ("tuning",
    [("/polynodes/tuningpbsw", "Tuning PB Switch (0/1)"),
     ("/polynodes/tuningressw", "Tuning Res Switch (0/1)")]),
   ("camera",
    [("/polynodes/camzoom", "Camera Zoom (+/- float)"),
     ("/polynodes/camrotate", "Camera Rotate (radians)")])]

/-- polynodes_list_osc_addresses: returns the registry dump, validates
nothing, sends nothing, and leaves the client untouched. -/
def polynodes_list_osc_addresses (st : ServerState) : Except ValidationError ToolOutput :=
  .ok (.addressList osc_addresses, [], st)

/-- polynodes_send_raw_osc: no validation, no registry lookup; forwards
the given address and value verbatim. -/
def polynodes_send_raw_osc (st : ServerState) (address : String) (value : ℚ) :
    Except ValidationError ToolOutput :=
  .ok (send_osc st address value)

/-! ### The dispatcher surface

OpCall enumerates one invocation of each tool with its raw arguments;
runCall dispatches it; runSeq runs a sequence of calls against the shared
module state, accumulating every datagram handed to the transport. -/

inductive OpCall where
  | play_stop (state : ℚ)
  | preset_slot (slot : ℚ)
  | set_gain (level : String) (value : ℚ)
  | set_dry_wet (value : ℚ)
  | gain_solo (level : String) (state : ℚ)
  | set_envelope_time (level : String) (value : ℚ)
  | set_playback_rate (level : String) (value : ℚ)
  | set_playback_rate_mod_range (level : String) (value : ℚ)
  | granular_switch (state : ℚ)
  | granular_duration (value : ℚ)
  | granular_duration_mod_range (value : ℚ)
  | filter_switch (level : String) (state : ℚ)
  | set_filter_freq (level : String) (value : ℚ)
  | set_filter_mod_range (level : String) (value : ℚ)
  | comb_switch (level : String) (state : ℚ)
  | set_comb_delay (level : String) (value : ℚ)
  | set_comb_mod_range (level : String) (value : ℚ)
  | blackhole_switch (state : ℚ)
  | blackhole_force (level : String) (value : ℚ)
  | whitehole_switch (state : ℚ)
  | whitehole_force (level : String) (value : ℚ)
  | ringmod_switch (state : ℚ)
  | ringmod_freq (level : String) (value : ℚ)
  | crush_switch (state : ℚ)
  | crush_bit_level (value : ℚ)
  | crush_range (value : ℚ)
  | resonator_switch (state : ℚ)
  | resonator_freq_dist (value : ℚ)
  | resonator_balance (value : ℚ)
  | cuboid_switch (cube : Int) (state : ℚ)
  | cuboid_return_level (level : String) (value : ℚ)
  | isomorph_switch (state : ℚ)
  | isomorph_mod_switch (param : String) (state : ℚ)
  | isomorph_mod_depth (param : String) (value : ℚ)
  | isomorph_bp_center (value : ℚ)
  | navigation_random_trigger (state : ℚ)
  | rearrange_trigger (state : ℚ)
  | poly_gates_switch (state : ℚ)
  | tuning_pb_switch (state : ℚ)
  | tuning_res_switch (state : ℚ)
  | camera_zoom (value : ℚ)
  | camera_rotate (value : ℚ)
  | set_bpm (value : ℚ)
  | list_osc_addresses
  | send_raw_osc (address : String) (value : ℚ)

def runCall : OpCall → ServerState → Except ValidationError ToolOutput
  | .play_stop state, st => polynodes_play_stop st state
  | .preset_slot slot, st => polynodes_preset_slot st slot
  | .set_gain level value, st => polynodes_set_gain st level value
  | .set_dry_wet value, st => polynodes_set_dry_wet st value
  | .gain_solo level state, st => polynodes_gain_solo st level state
  | .set_envelope_time level value, st => polynodes_set_envelope_time st level value
  | .set_playback_rate level value, st => polynodes_set_playback_rate st level value
  | .set_playback_rate_mod_range level value, st =>
      polynodes_set_playback_rate_mod_range st level value
  | .granular_switch state, st => polynodes_granular_switch st state
  | .granular_duration value, st => polynodes_granular_duration st value
  | .granular_duration_mod_range value, st => polynodes_granular_duration_mod_range st value
  | .filter_switch level state, st => polynodes_filter_switch st level state
  | .set_filter_freq level value, st => polynodes_set_filter_freq st level value
  | .set_filter_mod_range level value, st => polynodes_set_filter_mod_range st level value
  | .comb_switch level state, st => polynodes_comb_switch st level state
  | .set_comb_delay level value, st => polynodes_set_comb_delay st level value
  | .set_comb_mod_range level value, st => polynodes_set_comb_mod_range st level value
  | .blackhole_switch state, st => polynodes_blackhole_switch st state
  | .blackhole_force level value, st => polynodes_blackhole_force st level value
  | .whitehole_switch state, st => polynodes_whitehole_switch st state
  | .whitehole_force level value, st => polynodes_whitehole_force st level value
  | .ringmod_switch state, st => polynodes_ringmod_switch st state
  | .ringmod_freq level value, st => polynodes_ringmod_freq st level value
  | .crush_switch state, st => polynodes_crush_switch st state
  | .crush_bit_level value, st => polynodes_crush_bit_level st value
  | .crush_range value, st => polynodes_crush_range st value
  | .resonator_switch state, st => polynodes_resonator_switch st state
  | .resonator_freq_dist value, st => polynodes_resonator_freq_dist st value
  | .resonator_balance value, st => polynodes_resonator_balance st value
  | .cuboid_switch cube state, st => polynodes_cuboid_switch st cube state
  | .cuboid_return_level level value, st => polynodes_cuboid_return_level st level value
  | .isomorph_switch state, st => polynodes_isomorph_switch st state
  | .isomorph_mod_switch param state, st => polynodes_isomorph_mod_switch st param state
  | .isomorph_mod_depth param value, st => polynodes_isomorph_mod_depth st param value
  | .isomorph_bp_center value, st => polynodes_isomorph_bp_center st value
  | .navigation_random_trigger state, st => polynodes_navigation_random_trigger st state
  | .rearrange_trigger state, st => polynodes_rearrange_trigger st state
  | .poly_gates_switch state, st => polynodes_poly_gates_switch st state
  | .tuning_pb_switch state, st => polynodes_tuning_pb_switch st state
  | .tuning_res_switch state, st => polynodes_tuning_res_switch st state
  | .camera_zoom value, st => polynodes_camera_zoom st value
  | .camera_rotate value, st => polynodes_camera_rotate st value
  | .set_bpm value, st => polynodes_set_bpm st value
  | .list_osc_addresses, st => polynodes_list_osc_addresses st
  | .send_raw_osc address value, st => polynodes_send_raw_osc st address value

/-- Run a sequence of calls against the shared module state.  A rejected
call emits nothing and leaves the state unchanged (the tool body never
ran); an accepted call contributes its datagrams and threads the state. -/
def runSeq : List OpCall → ServerState → List Datagram × ServerState
  | [], st => ([], st)
  | c :: cs, st =>
    match runCall c st with
    | .error _ => runSeq cs st
    | .ok (_, d, st') =>
      let p := runSeq cs st'
      (d ++ p.1, p.2)

/-! ### The numeric-constraint registry

NumOp enumerates every (operation, numeric field) pair of the source that
declares a ge/le constraint; scoped operations are exercised at a fixed
valid scope.  numLo / numHi are the declared bounds, numAddr the address
the value is forwarded to.  The playback-rate and comb-delay value fields
declare no constraint and so do not appear here (see the C1 theorems). -/

inductive NumOp where
  | nPlayStop
  | nPresetSlot
  | nGain
  | nDryWet
  | nGainSolo
  | nEnvTime
  | nPbrMR
  | nGranuSw
  | nGranuDur
  | nGranuDurMR
  | nFiltSw
  | nFiltFreq
  | nFiltMR
  | nCombSw
  | nCombMR
  | nBHSw
  | nBHForce
  | nWHSw
  | nWHForce
  | nRMSw
  | nRMFreq
  | nCrushSw
  | nCrushBit
  | nCrushRange
  | nResoSw
  | nResoFreqDist
  | nResoBalance
  | nCuboidState
  | nCubeReturn
  | nIsoSw
  | nIsoModSw
  | nIsoModDepth
  | nIsoBPCenter
  | nNavTrig
  | nRearrTrig
  | nPolyGates
  | nTuningPb
  | nTuningRes
  | nBPM
deriving DecidableEq, Fintype

def runNumOp : NumOp → ServerState → ℚ → Except ValidationError ToolOutput
  | .nPlayStop, st, v => polynodes_play_stop st v
  | .nPresetSlot, st, v => polynodes_preset_slot st v
  | .nGain, st, v => polynodes_set_gain st "macro" v
  | .nDryWet, st, v => polynodes_set_dry_wet st v
  | .nGainSolo, st, v => polynodes_gain_solo st "macro" v
  | .nEnvTime, st, v => polynodes_set_envelope_time st "macro" v
  | .nPbrMR, st, v => polynodes_set_playback_rate_mod_range st "macro" v
  | .nGranuSw, st, v => polynodes_granular_switch st v
  | .nGranuDur, st, v => polynodes_granular_duration st v
  | .nGranuDurMR, st, v => polynodes_granular_duration_mod_range st v
  | .nFiltSw, st, v => polynodes_filter_switch st "macro" v
  | .nFiltFreq, st, v => polynodes_set_filter_freq st "macro" v
  | .nFiltMR, st, v => polynodes_set_filter_mod_range st "macro" v
  | .nCombSw, st, v => polynodes_comb_switch st "macro" v
  | .nCombMR, st, v => polynodes_set_comb_mod_range st "macro" v
  | .nBHSw, st, v => polynodes_blackhole_switch st v
  | .nBHForce, st, v => polynodes_blackhole_force st "macro" v
  | .nWHSw, st, v => polynodes_whitehole_switch st v
  | .nWHForce, st, v => polynodes_whitehole_force st "macro" v
  | .nRMSw, st, v => polynodes_ringmod_switch st v
  | .nRMFreq, st, v => polynodes_ringmod_freq st "macro" v
  | .nCrushSw, st, v => polynodes_crush_switch st v
  | .nCrushBit, st, v => polynodes_crush_bit_level st v
  | .nCrushRange, st, v => polynodes_crush_range st v
  | .nResoSw, st, v => polynodes_resonator_switch st v
  | .nResoFreqDist, st, v => polynodes_resonator_freq_dist st v
  | .nResoBalance, st, v => polynodes_resonator_balance st v
  | .nCuboidState, st, v => polynodes_cuboid_switch st 1 v
  | .nCubeReturn, st, v => polynodes_cuboid_return_level st "macro" v
  | .nIsoSw, st, v => polynodes_isomorph_switch st v
  | .nIsoModSw, st, v => polynodes_isomorph_mod_switch st "freq" v
  | .nIsoModDepth, st, v => polynodes_isomorph_mod_depth st "freq" v
  | .nIsoBPCenter, st, v => polynodes_isomorph_bp_center st v
  | .nNavTrig, st, v => polynodes_navigation_random_trigger st v
  | .nRearrTrig, st, v => polynodes_rearrange_trigger st v
  | .nPolyGates, st, v => polynodes_poly_gates_switch st v
  | .nTuningPb, st, v => polynodes_tuning_pb_switch st v
  | .nTuningRes, st, v => polynodes_tuning_res_switch st v
  | .nBPM, st, v => polynodes_set_bpm st v

def numLo : NumOp → ℚ
  | .nPlayStop => 0
  | .nPresetSlot => 1
  | .nGain => -80
  | .nDryWet => 0
  | .nGainSolo => 0
  | .nEnvTime => mkRat 1 100
  | .nPbrMR => 0
  | .nGranuSw => 0
  | .nGranuDur => 10
  | .nGranuDurMR => 0
  | .nFiltSw => 0
  | .nFiltFreq => 80
  | .nFiltMR => 0
  | .nCombSw => 0
  | .nCombMR => 0
  | .nBHSw => 0
  | .nBHForce => 0
  | .nWHSw => 0
  | .nWHForce => 0
  | .nRMSw => 0
  | .nRMFreq => 1
  | .nCrushSw => 0
  | .nCrushBit => 0
  | .nCrushRange => 0
  | .nResoSw => 0
  | .nResoFreqDist => 1
  | .nResoBalance => 0
  | .nCuboidState => 0
  | .nCubeReturn => 1
  | .nIsoSw => 0
  | .nIsoModSw => 0
  | .nIsoModDepth => 0
  | .nIsoBPCenter => 0
  | .nNavTrig => 0
  | .nRearrTrig => 0
  | .nPolyGates => 0
  | .nTuningPb => 0
  | .nTuningRes => 0
  | .nBPM => 10

def numHi : NumOp → ℚ
  | .nPlayStop => 1
  | .nPresetSlot => 10
  | .nGain => 20
  | .nDryWet => 1
  | .nGainSolo => 1
  | .nEnvTime => mkRat 1 2
  | .nPbrMR => mkRat 3 4
  | .nGranuSw => 1
  | .nGranuDur => 1000
  | .nGranuDurMR => mkRat 3 4
  | .nFiltSw => 1
  | .nFiltFreq => 8000
  | .nFiltMR => mkRat 3 4
  | .nCombSw => 1
  | .nCombMR => mkRat 3 4
  | .nBHSw => 1
  | .nBHForce => 1
  | .nWHSw => 1
  | .nWHForce => 1
  | .nRMSw => 1
  | .nRMFreq => 3
  | .nCrushSw => 1
  | .nCrushBit => 1
  | .nCrushRange => 5
  | .nResoSw => 1
  | .nResoFreqDist => 3
  | .nResoBalance => mkRat 1 2
  | .nCuboidState => 1
  | .nCubeReturn => 80
  | .nIsoSw => 1
  | .nIsoModSw => 1
  | .nIsoModDepth => 2
  | .nIsoBPCenter => 5000
  | .nNavTrig => 1
  | .nRearrTrig => 1
  | .nPolyGates => 1
  | .nTuningPb => 1
  | .nTuningRes => 1
  | .nBPM => 300

def numAddr : NumOp → String
  | .nPlayStop => "/polynodes/playstartstop"
  | .nPresetSlot => "/polynodes/presetslot"
  | .nGain => "/polynodes/MacroGain"
  | .nDryWet => "/polynodes/DryWet"
  | .nGainSolo => "/polynodes/MacroGainsolo"
  | .nEnvTime => "/polynodes/MacroEnvtime"
  | .nPbrMR => "/polynodes/pbrmacroMR"
  | .nGranuSw => "/polynodes/granusw"
  | .nGranuDur => "/polynodes/granuDur"
  | .nGranuDurMR => "/polynodes/granuDurMR"
  | .nFiltSw => "/polynodes/filtmacrosw"
  | .nFiltFreq => "/polynodes/filtmacro"
  | .nFiltMR => "/polynodes/filtmacroMR"
  | .nCombSw => "/polynodes/combmacrosw"
  | .nCombMR => "/polynodes/combmacroMR"
  | .nBHSw => "/polynodes/BHsw"
  | .nBHForce => "/polynodes/BHmacroforce"
  | .nWHSw => "/polynodes/WHsw"
  | .nWHForce => "/polynodes/WHmacroforce"
  | .nRMSw => "/polynodes/RMsw"
  | .nRMFreq => "/polynodes/RMmacro"
  | .nCrushSw => "/polynodes/CRSsw"
  | .nCrushBit => "/polynodes/CRSbitLvl"
  | .nCrushRange => "/polynodes/CRSrange"
  | .nResoSw => "/polynodes/ResoSw"
  | .nResoFreqDist => "/polynodes/ResoFreqdist"
  | .nResoBalance => "/polynodes/ResoBalance"
  | .nCuboidState => "/polynodes/C1sw"
  | .nCubeReturn => "/polynodes/MacroreturnLvl"
  | .nIsoSw => "/polynodes/isomorphsw"
  | .nIsoModSw => "/polynodes/isomfreqsw"
  | .nIsoModDepth => "/polynodes/isomfreqmodr"
  | .nIsoBPCenter => "/polynodes/isombpcent"
  | .nNavTrig => "/polynodes/navigrndtrig"
  | .nRearrTrig => "/polynodes/rearrtrig"
  | .nPolyGates => "/polynodes/polygatessw"
  | .nTuningPb => "/polynodes/tuningpbsw"
  | .nTuningRes => "/polynodes/tuningressw"
  | .nBPM => "/polynodes/seqbpm"

/-! ### The scoped-operation registry

ScopedOp enumerates every operation whose scope argument is a layer
string validated by validate_level.  (The freq/amp/res operations are
handled separately: polynodes_isomorph_mod_depth rejects like these, and
polynodes_isomorph_mod_switch returns an error payload instead.)
scoped_addr is the address map the operation resolves through, validVal a
value inside the operation's declared numeric interval. -/

inductive ScopedOp where
  | sGain
  | sGainSolo
  | sEnvTime
  | sPbr
  | sPbrMR
  | sFiltSw
  | sFiltFreq
  | sFiltMR
  | sCombSw
  | sCombDelay
  | sCombMR
  | sBHForce
  | sWHForce
  | sRMFreq
  | sCubeReturn
deriving DecidableEq, Fintype

def runScoped : ScopedOp → ServerState → String → ℚ → Except ValidationError ToolOutput
  | .sGain, st, s, v => polynodes_set_gain st s v
  | .sGainSolo, st, s, v => polynodes_gain_solo st s v
  | .sEnvTime, st, s, v => polynodes_set_envelope_time st s v
  | .sPbr, st, s, v => polynodes_set_playback_rate st s v
  | .sPbrMR, st, s, v => polynodes_set_playback_rate_mod_range st s v
  | .sFiltSw, st, s, v => polynodes_filter_switch st s v
  | .sFiltFreq, st, s, v => polynodes_set_filter_freq st s v
  | .sFiltMR, st, s, v => polynodes_set_filter_mod_range st s v
  | .sCombSw, st, s, v => polynodes_comb_switch st s v
  | .sCombDelay, st, s, v => polynodes_set_comb_delay st s v
  | .sCombMR, st, s, v => polynodes_set_comb_mod_range st s v
  | .sBHForce, st, s, v => polynodes_blackhole_force st s v
  | .sWHForce, st, s, v => polynodes_whitehole_force st s v
  | .sRMFreq, st, s, v => polynodes_ringmod_freq st s v
  | .sCubeReturn, st, s, v => polynodes_cuboid_return_level st s v

def scoped_addr : ScopedOp → Level → String
  | .sGain => gain_addr_map
  | .sGainSolo => gain_solo_addr_map
  | .sEnvTime => envelope_addr_map
  | .sPbr => pbr_addr_map
  | .sPbrMR => pbr_mr_addr_map
  | .sFiltSw => filter_sw_addr_map
  | .sFiltFreq => filter_addr_map
  | .sFiltMR => filter_mr_addr_map
  | .sCombSw => comb_sw_addr_map
  | .sCombDelay => comb_addr_map
  | .sCombMR => comb_mr_addr_map
  | .sBHForce => bh_force_addr_map
  | .sWHForce => wh_force_addr_map
  | .sRMFreq => rm_addr_map
  | .sCubeReturn => cube_return_addr_map

/-- A numeric value inside the declared interval of each scoped operation
(any value at all for the unconstrained playback-rate and comb-delay). -/
def validVal : ScopedOp → ℚ
  | .sGain => 0
  | .sGainSolo => 1
  | .sEnvTime => mkRat 1 10
  | .sPbr => 1
  | .sPbrMR => mkRat 1 2
  | .sFiltSw => 1
  | .sFiltFreq => 100
  | .sFiltMR => mkRat 1 2
  | .sCombSw => 1
  | .sCombDelay => 50
  | .sCombMR => mkRat 1 2
  | .sBHForce => mkRat 1 2
  | .sWHForce => mkRat 1 2
  | .sRMFreq => 2
  | .sCubeReturn => 10

def allLevels : List Level := [.macroLvl, .mesoLvl, .microLvl]

def allIParams : List IParam := [.freq, .amp, .res]

/-- Every wire address any validated operation can resolve to: the
unscoped addresses plus every scoped address map applied to every scope
key, in the order the tools are declared in the source. -/
def opAddresses : List String :=
  ["/polynodes/playstartstop", "/polynodes/presetslot"]
  ++ allLevels.map gain_addr_map
  ++ ["/polynodes/DryWet"]
  ++ allLevels.map gain_solo_addr_map
  ++ allLevels.map envelope_addr_map
  ++ allLevels.map pbr_addr_map
  ++ allLevels.map pbr_mr_addr_map
  ++ ["/polynodes/granusw", "/polynodes/granuDur", "/polynodes/granuDurMR"]
  ++ allLevels.map filter_sw_addr_map
  ++ allLevels.map filter_addr_map
  ++ allLevels.map filter_mr_addr_map
  ++ allLevels.map comb_sw_addr_map
  ++ allLevels.map comb_addr_map
  ++ allLevels.map comb_mr_addr_map
  ++ ["/polynodes/BHsw"]
  ++ allLevels.map bh_force_addr_map
  ++ ["/polynodes/WHsw"]
  ++ allLevels.map wh_force_addr_map
  ++ ["/polynodes/RMsw"]
  ++ allLevels.map rm_addr_map
  ++ ["/polynodes/CRSsw", "/polynodes/CRSbitLvl", "/polynodes/CRSrange"]
  ++ ["/polynodes/ResoSw", "/polynodes/ResoFreqdist", "/polynodes/ResoBalance"]
  ++ ([1, 2, 3] : List Int).map cuboid_addr
  ++ allLevels.map cube_return_addr_map
  ++ ["/polynodes/isomorphsw"]
  ++ allIParams.map isom_sw_addr_map
  ++ allIParams.map isom_modr_addr_map
  ++ ["/polynodes/isombpcent"]
  ++ ["/polynodes/navigrndtrig", "/polynodes/rearrtrig", "/polynodes/polygatessw"]
  ++ ["/polynodes/tuningpbsw", "/polynodes/tuningressw"]
  ++ ["/polynodes/camzoom", "/polynodes/camrotate", "/polynodes/seqbpm"]

/-! ### Helper lemmas -/

theorem send_osc_eq (st : ServerState) (a : String) (v : ℚ) :
    send_osc st a v = (.sent ⟨"sent", a, v⟩, [⟨clientOf st, a, v⟩], some (clientOf st)) := by
  cases st <;> rfl

theorem clientOf_some (k : Client) : clientOf (some k) = k := rfl

theorem checkRange_pos {v lo hi : ℚ} (h : lo ≤ v ∧ v ≤ hi) : checkRange v lo hi = .ok v := by
  simp [checkRange, h.1, h.2]

theorem checkRange_neg {v lo hi : ℚ} (h : ¬(lo ≤ v ∧ v ≤ hi)) :
    checkRange v lo hi = .error (.outOfRange v lo hi) := by
  simp only [checkRange, if_neg h]

theorem checkRangeInt_pos {v lo hi : Int} (h : lo ≤ v ∧ v ≤ hi) :
    checkRangeInt v lo hi = .ok v := by
  simp [checkRangeInt, h.1, h.2]

theorem checkRangeInt_neg {v lo hi : Int} (h : ¬(lo ≤ v ∧ v ≤ hi)) :
    checkRangeInt v lo hi = .error (.outOfRange (v : ℚ) (lo : ℚ) (hi : ℚ)) := by
  simp only [checkRangeInt, if_neg h]

theorem validate_level_strip_macro : validate_level (pyStrip "macro") = .ok .macroLvl := by
  decide

theorem validate_param_strip_freq : validate_param (pyStrip "freq") = .ok .freq := by decide

theorem validate_param_freq : validate_param "freq" = .ok .freq := by decide

theorem cuboid_addr_one : cuboid_addr 1 = "/polynodes/C1sw" := by decide

/-! ### Claim theorems -/

/-- C1: the spec claims set-playback-rate and set-comb-delay reject values
outside their per-scope intervals with OutOfRange and forward nothing.
The code declares no constraint on either value field, contradicting its
own docstrings and field descriptions: a macro playback rate of 50
(documented interval 0.3..10) and a micro comb delay of 5000 (documented
interval 10..300) are both accepted, forwarded to the transport, and
acknowledged. -/
theorem claim_C1_unvalidated_rate_and_comb :
    polynodes_set_playback_rate none "macro" 50 =
      .ok (.sent ⟨"sent", "/polynodes/pbrmacro", 50⟩,
           [⟨⟨"127.0.0.1", 4799⟩, "/polynodes/pbrmacro", 50⟩],
           some ⟨"127.0.0.1", 4799⟩)
  ∧ polynodes_set_comb_delay none "micro" 5000 =
      .ok (.sent ⟨"sent", "/polynodes/combmicro", 5000⟩,
           [⟨⟨"127.0.0.1", 4799⟩, "/polynodes/combmicro", 5000⟩],
           some ⟨"127.0.0.1", 4799⟩) := by
  exact ⟨by decide, by decide⟩

/-- C4: set_gain with level meso and value -12.5 forwards exactly one
message to /polynodes/MesoGain with value -12.5 and returns the sent
acknowledgment echoing address and value; with value 25 the call is
rejected as OutOfRange (max 20) before the body runs, so nothing is
forwarded. -/
theorem claim_C4_gain_scenarios :
    polynodes_set_gain none "meso" (mkRat (-25) 2) =
      .ok (.sent ⟨"sent", "/polynodes/MesoGain", mkRat (-25) 2⟩,
           [⟨⟨"127.0.0.1", 4799⟩, "/polynodes/MesoGain", mkRat (-25) 2⟩],
           some ⟨"127.0.0.1", 4799⟩)
  ∧ polynodes_set_gain none "meso" 25 = .error (.outOfRange 25 (-80) 20) := by
  exact ⟨by decide, by decide⟩

/-- C6: the raw-send operation validates nothing and looks up nothing:
for every state, address string and value it forwards exactly the given
pair verbatim through the shared client and returns the sent
acknowledgment echoing them unchanged. -/
theorem claim_C6_raw_send (st : ServerState) (a : String) (v : ℚ) :
    polynodes_send_raw_osc st a v =
      .ok (.sent ⟨"sent", a, v⟩, [⟨clientOf st, a, v⟩], some (clientOf st)) := by
  cases st <;> rfl

/-- C5: the address registry is complete and injective: the list of every
address resolvable by any operation (every scoped address map applied to
every scope key of its enumerated set, plus every unscoped address) has
no duplicates, and each scoped map resolves each of its scope keys to an
address in that list. -/
theorem claim_C5_registry_injective :
    opAddresses.Nodup
  ∧ (∀ l : Level,
      gain_addr_map l ∈ opAddresses ∧ gain_solo_addr_map l ∈ opAddresses ∧
      envelope_addr_map l ∈ opAddresses ∧ pbr_addr_map l ∈ opAddresses ∧
      pbr_mr_addr_map l ∈ opAddresses ∧ filter_sw_addr_map l ∈ opAddresses ∧
      filter_addr_map l ∈ opAddresses ∧ filter_mr_addr_map l ∈ opAddresses ∧
      comb_sw_addr_map l ∈ opAddresses ∧ comb_addr_map l ∈ opAddresses ∧
      comb_mr_addr_map l ∈ opAddresses ∧ bh_force_addr_map l ∈ opAddresses ∧
      wh_force_addr_map l ∈ opAddresses ∧ rm_addr_map l ∈ opAddresses ∧
      cube_return_addr_map l ∈ opAddresses)
  ∧ (∀ p : IParam, isom_sw_addr_map p ∈ opAddresses ∧ isom_modr_addr_map p ∈ opAddresses)
  ∧ (∀ c : Int, 1 ≤ c → c ≤ 3 → cuboid_addr c ∈ opAddresses) := by
  refine ⟨by decide, by decide, by decide, ?_⟩
  intro c h1 h2
  interval_cases c <;> decide

/-- Witness for C5 at a concrete cuboid index. -/
theorem claim_C5_registry_injective_witness : cuboid_addr 2 ∈ opAddresses :=
  claim_C5_registry_injective.2.2.2 2 (by norm_num) (by norm_num)

/-- C7: the listing operation returns the registry dump grouped by
category, covering every address any operation can resolve to, and it
neither sends a datagram nor touches the shared client. -/
theorem claim_C7_listing (st : ServerState) :
    polynodes_list_osc_addresses st = .ok (.addressList osc_addresses, [], st)
  ∧ osc_addresses.map Prod.fst =
      ["transport", "gain", "envelope", "playback_rate", "granulator", "bandpass_filter",
       "comb_filter", "blackhole", "whitehole", "ring_modulator", "bitcrusher", "resonator",
       "cuboid_fx", "isomorph", "navigation", "tuning", "camera"]
  ∧ ∀ a ∈ opAddresses, ∃ g ∈ osc_addresses, ∃ e ∈ g.2, e.1 = a := by
  exact ⟨rfl, by decide, by decide⟩

/-- Witness for C7 at a concrete address. -/
theorem claim_C7_listing_witness :
    ∃ g ∈ osc_addresses, ∃ e ∈ g.2, e.1 = "/polynodes/DryWet" :=
  (claim_C7_listing none).2.2 "/polynodes/DryWet" (by decide)

/-- C3 counterexample: the claim says every scope-scoped operation whose
normalized scope token is outside the enumerated set fails with
InvalidScope; but the isomorphic-modulation target switch is scope-scoped
(param over freq/amp/res) and on the unrecognized token giant it does not
fail: it returns a success-shaped error payload (and sends nothing). -/
theorem claim_C3_counterexample :
    polynodes_isomorph_mod_switch none "giant" 1 =
      .ok (.errorPayload paramMsg, [], none) := by
  decide

/-- C3 (amended to exclude the isomorphic target switch): every layer-scoped
operation normalizes its scope string by lower-casing and stripping
whitespace; a token that normalizes into the enumerated set resolves to the
documented address for that scope and the call succeeds, a token that does
not is rejected with the InvalidScope error before any address resolution
or send; likewise for the freq/amp/res-scoped depth operation. -/
theorem claim_C3_scope_normalization :
    (∀ (op : ScopedOp) (st : ServerState) (s : String) (l : Level),
        validate_level (pyStrip s) = .ok l →
        runScoped op st s (validVal op) =
          .ok (.sent ⟨"sent", scoped_addr op l, validVal op⟩,
               [⟨clientOf st, scoped_addr op l, validVal op⟩], some (clientOf st)))
  ∧ (∀ (op : ScopedOp) (st : ServerState) (s : String) (e : ValidationError),
        validate_level (pyStrip s) = .error e →
        runScoped op st s (validVal op) = .error e)
  ∧ (∀ (s : String) (e : ValidationError),
        validate_level s = .error e → e = .invalidScope levelMsg)
  ∧ (∀ (s : String) (l : Level),
        validate_level s = .ok l → pyStrip (pyLower s) = levelToken l)
  ∧ (∀ (st : ServerState) (s : String) (p : IParam),
        validate_param (pyStrip s) = .ok p →
        polynodes_isomorph_mod_depth st s 1 =
          .ok (.sent ⟨"sent", isom_modr_addr_map p, 1⟩,
               [⟨clientOf st, isom_modr_addr_map p, 1⟩], some (clientOf st)))
  ∧ (∀ (st : ServerState) (s : String) (e : ValidationError),
        validate_param (pyStrip s) = .error e →
        polynodes_isomorph_mod_depth st s 1 = .error e) := by
  refine ⟨?_, ?_, ?_, ?_, ?_, ?_⟩
  · intro op st s l h
    cases op <;>
      norm_num [runScoped, validVal, scoped_addr,
        polynodes_set_gain, polynodes_gain_solo, polynodes_set_envelope_time,
        polynodes_set_playback_rate, polynodes_set_playback_rate_mod_range,
        polynodes_filter_switch, polynodes_set_filter_freq, polynodes_set_filter_mod_range,
        polynodes_comb_switch, polynodes_set_comb_delay, polynodes_set_comb_mod_range,
        polynodes_blackhole_force, polynodes_whitehole_force, polynodes_ringmod_freq,
        polynodes_cuboid_return_level,
        GainInput.validate, GainSoloInput.validate, EnvelopeTimeInput.validate,
        PlaybackRateInput.validate, PlaybackRateMRInput.validate, FilterSwitchInput.validate,
        FilterInput.validate, FilterMRInput.validate, CombSwitchInput.validate,
        CombInput.validate, CombMRInput.validate, ForceInput.validate, RingModInput.validate,
        CubeReturnInput.validate, h, checkRange, send_osc_eq]
  · intro op st s e h
    cases op <;>
      simp [runScoped,
        polynodes_set_gain, polynodes_gain_solo, polynodes_set_envelope_time,
        polynodes_set_playback_rate, polynodes_set_playback_rate_mod_range,
        polynodes_filter_switch, polynodes_set_filter_freq, polynodes_set_filter_mod_range,
        polynodes_comb_switch, polynodes_set_comb_delay, polynodes_set_comb_mod_range,
        polynodes_blackhole_force, polynodes_whitehole_force, polynodes_ringmod_freq,
        polynodes_cuboid_return_level,
        GainInput.validate, GainSoloInput.validate, EnvelopeTimeInput.validate,
        PlaybackRateInput.validate, PlaybackRateMRInput.validate, FilterSwitchInput.validate,
        FilterInput.validate, FilterMRInput.validate, CombSwitchInput.validate,
        CombInput.validate, CombMRInput.validate, ForceInput.validate, RingModInput.validate,
        CubeReturnInput.validate, h]
  · intro s e h
    dsimp only [validate_level] at h
    split_ifs at h
    all_goals simp_all
  · intro s l h
    dsimp only [validate_level] at h
    split_ifs at h <;> cases h <;> simp_all [levelToken]
  · intro st s p h
    norm_num [polynodes_isomorph_mod_depth, IsomorphModInput.validate, h, checkRange,
      send_osc_eq]
  · intro st s e h
    simp [polynodes_isomorph_mod_depth, IsomorphModInput.validate, h]

/-- Witness for C3: a mixed-case padded scope normalizes into the set and
resolves to the documented macro gain address. -/
theorem claim_C3_scope_normalization_witness :
    runScoped .sGain none "  MACRO " (validVal .sGain) =
      .ok (.sent ⟨"sent", "/polynodes/MacroGain", 0⟩,
           [⟨⟨"127.0.0.1", 4799⟩, "/polynodes/MacroGain", 0⟩],
           some ⟨"127.0.0.1", 4799⟩) :=
  claim_C3_scope_normalization.1 .sGain none "  MACRO " .macroLvl (by decide)

/-- C8: the isomorphic-modulation target switch does not reject an
unrecognized param token: with a valid state it returns the structured
error payload as a normal result and forwards nothing; a token
normalizing to freq, amp or res sends to the corresponding switch address
and returns the sent acknowledgment. -/
theorem claim_C8_isomorph_target_switch (st : ServerState) (p : String) (v : ℚ)
    (h0 : 0 ≤ v) (h1 : v ≤ 1) :
    (pyStrip (pyLower p) ∉ (["freq", "amp", "res"] : List String) →
      polynodes_isomorph_mod_switch st p v = .ok (.errorPayload paramMsg, [], st))
  ∧ (pyStrip (pyLower p) = "freq" →
      polynodes_isomorph_mod_switch st p v =
        .ok (.sent ⟨"sent", "/polynodes/isomfreqsw", v⟩,
             [⟨clientOf st, "/polynodes/isomfreqsw", v⟩], some (clientOf st)))
  ∧ (pyStrip (pyLower p) = "amp" →
      polynodes_isomorph_mod_switch st p v =
        .ok (.sent ⟨"sent", "/polynodes/isomampsw", v⟩,
             [⟨clientOf st, "/polynodes/isomampsw", v⟩], some (clientOf st)))
  ∧ (pyStrip (pyLower p) = "res" →
      polynodes_isomorph_mod_switch st p v =
        .ok (.sent ⟨"sent", "/polynodes/isomressw", v⟩,
             [⟨clientOf st, "/polynodes/isomressw", v⟩], some (clientOf st))) := by
  refine ⟨fun hn => ?_, fun hf => ?_, fun ha => ?_, fun hr => ?_⟩
  · simp only [List.mem_cons, List.mem_singleton, not_or] at hn
    obtain ⟨hn1, hn2, hn3⟩ := hn
    simp [polynodes_isomorph_mod_switch, checkRange_pos ⟨h0, h1⟩, validate_param,
      hn1, hn2, hn3, isom_sw_addr_map]
  · simp [polynodes_isomorph_mod_switch, checkRange_pos ⟨h0, h1⟩, validate_param, hf,
      isom_sw_addr_map, send_osc_eq]
  · simp [polynodes_isomorph_mod_switch, checkRange_pos ⟨h0, h1⟩, validate_param, ha,
      isom_sw_addr_map, send_osc_eq]
  · simp [polynodes_isomorph_mod_switch, checkRange_pos ⟨h0, h1⟩, validate_param, hr,
      isom_sw_addr_map, send_osc_eq]

/-- Witness for C8 at an unrecognized token. -/
theorem claim_C8_isomorph_target_switch_witness :
    polynodes_isomorph_mod_switch none "huge" 1 = .ok (.errorPayload paramMsg, [], none) :=
  (claim_C8_isomorph_target_switch none "huge" 1 (by norm_num) (by norm_num)).1 (by decide)

theorem checkRangeInt_one_ok : checkRangeInt 1 1 3 = .ok 1 := by decide

/-- C2: every operation field with a declared numeric constraint accepts
exactly the closed interval: inside (endpoints included) the call succeeds,
producing the sent acknowledgment and forwarding the value to the
operation's address; outside (strictly below the minimum or strictly above
the maximum) it is rejected with OutOfRange and nothing runs.  The second
part states the same for the integer cuboid-index constraint. -/
theorem claim_C2_closed_intervals :
    (∀ (op : NumOp) (st : ServerState) (v : ℚ),
      runNumOp op st v =
        if numLo op ≤ v ∧ v ≤ numHi op then
          .ok (.sent ⟨"sent", numAddr op, v⟩, [⟨clientOf st, numAddr op, v⟩],
               some (clientOf st))
        else .error (.outOfRange v (numLo op) (numHi op)))
  ∧ (∀ (st : ServerState) (c : Int),
      polynodes_cuboid_switch st c 1 =
        if 1 ≤ c ∧ c ≤ 3 then
          .ok (.sent ⟨"sent", cuboid_addr c, 1⟩, [⟨clientOf st, cuboid_addr c, 1⟩],
               some (clientOf st))
        else .error (.outOfRange (c : ℚ) 1 3)) := by
  constructor
  · intro op st v
    cases op
    all_goals simp only [runNumOp, numLo, numHi, numAddr]
    all_goals split <;> rename_i hC
    all_goals first
    | simp [polynodes_play_stop, polynodes_preset_slot, polynodes_set_gain,
        polynodes_set_dry_wet, polynodes_gain_solo, polynodes_set_envelope_time,
        polynodes_set_playback_rate_mod_range, polynodes_granular_switch,
        polynodes_granular_duration, polynodes_granular_duration_mod_range,
        polynodes_filter_switch, polynodes_set_filter_freq, polynodes_set_filter_mod_range,
        polynodes_comb_switch, polynodes_set_comb_mod_range, polynodes_blackhole_switch,
        polynodes_blackhole_force, polynodes_whitehole_switch, polynodes_whitehole_force,
        polynodes_ringmod_switch, polynodes_ringmod_freq, polynodes_crush_switch,
        polynodes_crush_bit_level, polynodes_crush_range, polynodes_resonator_switch,
        polynodes_resonator_freq_dist, polynodes_resonator_balance, polynodes_cuboid_switch,
        polynodes_cuboid_return_level, polynodes_isomorph_switch,
        polynodes_isomorph_mod_switch, polynodes_isomorph_mod_depth,
        polynodes_isomorph_bp_center, polynodes_navigation_random_trigger,
        polynodes_rearrange_trigger, polynodes_poly_gates_switch, polynodes_tuning_pb_switch,
        polynodes_tuning_res_switch, polynodes_set_bpm,
        PlayStopInput.validate, PresetSlotInput.validate, GainInput.validate,
        DryWetInput.validate, GainSoloInput.validate, EnvelopeTimeInput.validate,
        PlaybackRateMRInput.validate, SwitchInput.validate, GranularDurationInput.validate,
        GranularDurationMRInput.validate, FilterSwitchInput.validate, FilterInput.validate,
        FilterMRInput.validate, CombSwitchInput.validate, CombMRInput.validate,
        ForceInput.validate, RingModInput.validate, CubeReturnInput.validate,
        CrushBitInput.validate, CrushRangeInput.validate, ResonatorFreqDistInput.validate,
        ResonatorBalanceInput.validate, IsomorphModInput.validate,
        IsomorphBPCenterInput.validate, BPMInput.validate, CuboidArgs.validate,
        validate_level_strip_macro, validate_param_strip_freq, validate_param_freq,
        checkRangeInt_one_ok, cuboid_addr_one, isom_sw_addr_map, isom_modr_addr_map,
        gain_addr_map, gain_solo_addr_map, envelope_addr_map, pbr_mr_addr_map,
        filter_sw_addr_map, filter_addr_map, filter_mr_addr_map, comb_sw_addr_map,
        comb_mr_addr_map, bh_force_addr_map, wh_force_addr_map, rm_addr_map,
        cube_return_addr_map,
        checkRange_pos hC, send_osc_eq]
    | simp [polynodes_play_stop, polynodes_preset_slot, polynodes_set_gain,
        polynodes_set_dry_wet, polynodes_gain_solo, polynodes_set_envelope_time,
        polynodes_set_playback_rate_mod_range, polynodes_granular_switch,
        polynodes_granular_duration, polynodes_granular_duration_mod_range,
        polynodes_filter_switch, polynodes_set_filter_freq, polynodes_set_filter_mod_range,
        polynodes_comb_switch, polynodes_set_comb_mod_range, polynodes_blackhole_switch,
        polynodes_blackhole_force, polynodes_whitehole_switch, polynodes_whitehole_force,
        polynodes_ringmod_switch, polynodes_ringmod_freq, polynodes_crush_switch,
        polynodes_crush_bit_level, polynodes_crush_range, polynodes_resonator_switch,
        polynodes_resonator_freq_dist, polynodes_resonator_balance, polynodes_cuboid_switch,
        polynodes_cuboid_return_level, polynodes_isomorph_switch,
        polynodes_isomorph_mod_switch, polynodes_isomorph_mod_depth,
        polynodes_isomorph_bp_center, polynodes_navigation_random_trigger,
        polynodes_rearrange_trigger, polynodes_poly_gates_switch, polynodes_tuning_pb_switch,
        polynodes_tuning_res_switch, polynodes_set_bpm,
        PlayStopInput.validate, PresetSlotInput.validate, GainInput.validate,
        DryWetInput.validate, GainSoloInput.validate, EnvelopeTimeInput.validate,
        PlaybackRateMRInput.validate, SwitchInput.validate, GranularDurationInput.validate,
        GranularDurationMRInput.validate, FilterSwitchInput.validate, FilterInput.validate,
        FilterMRInput.validate, CombSwitchInput.validate, CombMRInput.validate,
        ForceInput.validate, RingModInput.validate, CubeReturnInput.validate,
        CrushBitInput.validate, CrushRangeInput.validate, ResonatorFreqDistInput.validate,
        ResonatorBalanceInput.validate, IsomorphModInput.validate,
        IsomorphBPCenterInput.validate, BPMInput.validate, CuboidArgs.validate,
        validate_level_strip_macro, validate_param_strip_freq, validate_param_freq,
        checkRangeInt_one_ok, isom_sw_addr_map, isom_modr_addr_map,
        checkRange_neg hC]
  · intro st c
    by_cases hC : 1 ≤ c ∧ c ≤ 3
    · simp [polynodes_cuboid_switch, CuboidArgs.validate, checkRangeInt_pos hC,
        checkRange_pos (show (0 : ℚ) ≤ 1 ∧ (1 : ℚ) ≤ 1 by norm_num), send_osc_eq, hC]
    · simp [polynodes_cuboid_switch, CuboidArgs.validate, checkRangeInt_neg hC, hC]

/-- Every call is one of three shapes, uniformly in the module state: a
state-independent rejection, a state-preserving no-send result, or one
send through the client obtained from the state, caching it. -/
theorem runCall_shape (c : OpCall) :
    (∃ e, ∀ st, runCall c st = .error e) ∨
    (∃ out, ∀ st, runCall c st = .ok (out, [], st)) ∨
    (∃ a v, ∀ st, runCall c st =
      .ok (.sent ⟨"sent", a, v⟩, [⟨clientOf st, a, v⟩], some (clientOf st))) := by
  cases c with
  | play_stop state =>
    rcases hv : PlayStopInput.validate state with e | p
    · exact Or.inl ⟨e, fun st => by simp [runCall, polynodes_play_stop, hv]⟩
    · exact Or.inr (Or.inr ⟨"/polynodes/playstartstop", p, fun st => by
        simp [runCall, polynodes_play_stop, hv, send_osc_eq]⟩)
  | preset_slot slot =>
    rcases hv : PresetSlotInput.validate slot with e | p
    · exact Or.inl ⟨e, fun st => by simp [runCall, polynodes_preset_slot, hv]⟩
    · exact Or.inr (Or.inr ⟨"/polynodes/presetslot", p, fun st => by
        simp [runCall, polynodes_preset_slot, hv, send_osc_eq]⟩)
  | set_gain level value =>
    rcases hv : GainInput.validate level value with e | p
    · exact Or.inl ⟨e, fun st => by simp [runCall, polynodes_set_gain, hv]⟩
    · exact Or.inr (Or.inr ⟨gain_addr_map p.level, p.value, fun st => by
        simp [runCall, polynodes_set_gain, hv, send_osc_eq]⟩)
  | set_dry_wet value =>
    rcases hv : DryWetInput.validate value with e | p
    · exact Or.inl ⟨e, fun st => by simp [runCall, polynodes_set_dry_wet, hv]⟩
    · exact Or.inr (Or.inr ⟨"/polynodes/DryWet", p, fun st => by
        simp [runCall, polynodes_set_dry_wet, hv, send_osc_eq]⟩)
  | gain_solo level state =>
    rcases hv : GainSoloInput.validate level state with e | p
    · exact Or.inl ⟨e, fun st => by simp [runCall, polynodes_gain_solo, hv]⟩
    · exact Or.inr (Or.inr ⟨gain_solo_addr_map p.level, p.state, fun st => by
        simp [runCall, polynodes_gain_solo, hv, send_osc_eq]⟩)
  | set_envelope_time level value =>
    rcases hv : EnvelopeTimeInput.validate level value with e | p
    · exact Or.inl ⟨e, fun st => by simp [runCall, polynodes_set_envelope_time, hv]⟩
    · exact Or.inr (Or.inr ⟨envelope_addr_map p.level, p.value, fun st => by
        simp [runCall, polynodes_set_envelope_time, hv, send_osc_eq]⟩)
  | set_playback_rate level value =>
    rcases hv : PlaybackRateInput.validate level value with e | p
    · exact Or.inl ⟨e, fun st => by simp [runCall, polynodes_set_playback_rate, hv]⟩
    · exact Or.inr (Or.inr ⟨pbr_addr_map p.level, p.value, fun st => by
        simp [runCall, polynodes_set_playback_rate, hv, send_osc_eq]⟩)
  | set_playback_rate_mod_range level value =>
    rcases hv : PlaybackRateMRInput.validate level value with e | p
    · exact Or.inl ⟨e, fun st => by simp [runCall, polynodes_set_playback_rate_mod_range, hv]⟩
    · exact Or.inr (Or.inr ⟨pbr_mr_addr_map p.level, p.value, fun st => by
        simp [runCall, polynodes_set_playback_rate_mod_range, hv, send_osc_eq]⟩)
  | granular_switch state =>
    rcases hv : SwitchInput.validate state with e | p
    · exact Or.inl ⟨e, fun st => by simp [runCall, polynodes_granular_switch, hv]⟩
    · exact Or.inr (Or.inr ⟨"/polynodes/granusw", p, fun st => by
        simp [runCall, polynodes_granular_switch, hv, send_osc_eq]⟩)
  | granular_duration value =>
    rcases hv : GranularDurationInput.validate value with e | p
    · exact Or.inl ⟨e, fun st => by simp [runCall, polynodes_granular_duration, hv]⟩
    · exact Or.inr (Or.inr ⟨"/polynodes/granuDur", p, fun st => by
        simp [runCall, polynodes_granular_duration, hv, send_osc_eq]⟩)
  | granular_duration_mod_range value =>
    rcases hv : GranularDurationMRInput.validate value with e | p
    · exact Or.inl ⟨e, fun st => by simp [runCall, polynodes_granular_duration_mod_range, hv]⟩
    · exact Or.inr (Or.inr ⟨"/polynodes/granuDurMR", p, fun st => by
        simp [runCall, polynodes_granular_duration_mod_range, hv, send_osc_eq]⟩)
  | filter_switch level state =>
    rcases hv : FilterSwitchInput.validate level state with e | p
    · exact Or.inl ⟨e, fun st => by simp [runCall, polynodes_filter_switch, hv]⟩
    · exact Or.inr (Or.inr ⟨filter_sw_addr_map p.level, p.state, fun st => by
        simp [runCall, polynodes_filter_switch, hv, send_osc_eq]⟩)
  | set_filter_freq level value =>
    rcases hv : FilterInput.validate level value with e | p
    · exact Or.inl ⟨e, fun st => by simp [runCall, polynodes_set_filter_freq, hv]⟩
    · exact Or.inr (Or.inr ⟨filter_addr_map p.level, p.value, fun st => by
        simp [runCall, polynodes_set_filter_freq, hv, send_osc_eq]⟩)
  | set_filter_mod_range level value =>
    rcases hv : FilterMRInput.validate level value with e | p
    · exact Or.inl ⟨e, fun st => by simp [runCall, polynodes_set_filter_mod_range, hv]⟩
    · exact Or.inr (Or.inr ⟨filter_mr_addr_map p.level, p.value, fun st => by
        simp [runCall, polynodes_set_filter_mod_range, hv, send_osc_eq]⟩)
  | comb_switch level state =>
    rcases hv : CombSwitchInput.validate level state with e | p
    · exact Or.inl ⟨e, fun st => by simp [runCall, polynodes_comb_switch, hv]⟩
    · exact Or.inr (Or.inr ⟨comb_sw_addr_map p.level, p.state, fun st => by
        simp [runCall, polynodes_comb_switch, hv, send_osc_eq]⟩)
  | set_comb_delay level value =>
    rcases hv : CombInput.validate level value with e | p
    · exact Or.inl ⟨e, fun st => by simp [runCall, polynodes_set_comb_delay, hv]⟩
    · exact Or.inr (Or.inr ⟨comb_addr_map p.level, p.value, fun st => by
        simp [runCall, polynodes_set_comb_delay, hv, send_osc_eq]⟩)
  | set_comb_mod_range level value =>
    rcases hv : CombMRInput.validate level value with e | p
    · exact Or.inl ⟨e, fun st => by simp [runCall, polynodes_set_comb_mod_range, hv]⟩
    · exact Or.inr (Or.inr ⟨comb_mr_addr_map p.level, p.value, fun st => by
        simp [runCall, polynodes_set_comb_mod_range, hv, send_osc_eq]⟩)
  | blackhole_switch state =>
    rcases hv : SwitchInput.validate state with e | p
    · exact Or.inl ⟨e, fun st => by simp [runCall, polynodes_blackhole_switch, hv]⟩
    · exact Or.inr (Or.inr ⟨"/polynodes/BHsw", p, fun st => by
        simp [runCall, polynodes_blackhole_switch, hv, send_osc_eq]⟩)
  | blackhole_force level value =>
    rcases hv : ForceInput.validate level value with e | p
    · exact Or.inl ⟨e, fun st => by simp [runCall, polynodes_blackhole_force, hv]⟩
    · exact Or.inr (Or.inr ⟨bh_force_addr_map p.level, p.value, fun st => by
        simp [runCall, polynodes_blackhole_force, hv, send_osc_eq]⟩)
  | whitehole_switch state =>
    rcases hv : SwitchInput.validate state with e | p
    · exact Or.inl ⟨e, fun st => by simp [runCall, polynodes_whitehole_switch, hv]⟩
    · exact Or.inr (Or.inr ⟨"/polynodes/WHsw", p, fun st => by
        simp [runCall, polynodes_whitehole_switch, hv, send_osc_eq]⟩)
  | whitehole_force level value =>
    rcases hv : ForceInput.validate level value with e | p
    · exact Or.inl ⟨e, fun st => by simp [runCall, polynodes_whitehole_force, hv]⟩
    · exact Or.inr (Or.inr ⟨wh_force_addr_map p.level, p.value, fun st => by
        simp [runCall, polynodes_whitehole_force, hv, send_osc_eq]⟩)
  | ringmod_switch state =>
    rcases hv : SwitchInput.validate state with e | p
    · exact Or.inl ⟨e, fun st => by simp [runCall, polynodes_ringmod_switch, hv]⟩
    · exact Or.inr (Or.inr ⟨"/polynodes/RMsw", p, fun st => by
        simp [runCall, polynodes_ringmod_switch, hv, send_osc_eq]⟩)
  | ringmod_freq level value =>
    rcases hv : RingModInput.validate level value with e | p
    · exact Or.inl ⟨e, fun st => by simp [runCall, polynodes_ringmod_freq, hv]⟩
    · exact Or.inr (Or.inr ⟨rm_addr_map p.level, p.value, fun st => by
        simp [runCall, polynodes_ringmod_freq, hv, send_osc_eq]⟩)
  | crush_switch state =>
    rcases hv : SwitchInput.validate state with e | p
    · exact Or.inl ⟨e, fun st => by simp [runCall, polynodes_crush_switch, hv]⟩
    · exact Or.inr (Or.inr ⟨"/polynodes/CRSsw", p, fun st => by
        simp [runCall, polynodes_crush_switch, hv, send_osc_eq]⟩)
  | crush_bit_level value =>
    rcases hv : CrushBitInput.validate value with e | p
    · exact Or.inl ⟨e, fun st => by simp [runCall, polynodes_crush_bit_level, hv]⟩
    · exact Or.inr (Or.inr ⟨"/polynodes/CRSbitLvl", p, fun st => by
        simp [runCall, polynodes_crush_bit_level, hv, send_osc_eq]⟩)
  | crush_range value =>
    rcases hv : CrushRangeInput.validate value with e | p
    · exact Or.inl ⟨e, fun st => by simp [runCall, polynodes_crush_range, hv]⟩
    · exact Or.inr (Or.inr ⟨"/polynodes/CRSrange", p, fun st => by
        simp [runCall, polynodes_crush_range, hv, send_osc_eq]⟩)
  | resonator_switch state =>
    rcases hv : SwitchInput.validate state with e | p
    · exact Or.inl ⟨e, fun st => by simp [runCall, polynodes_resonator_switch, hv]⟩
    · exact Or.inr (Or.inr ⟨"/polynodes/ResoSw", p, fun st => by
        simp [runCall, polynodes_resonator_switch, hv, send_osc_eq]⟩)
  | resonator_freq_dist value =>
    rcases hv : ResonatorFreqDistInput.validate value with e | p
    · exact Or.inl ⟨e, fun st => by simp [runCall, polynodes_resonator_freq_dist, hv]⟩
    · exact Or.inr (Or.inr ⟨"/polynodes/ResoFreqdist", p, fun st => by
        simp [runCall, polynodes_resonator_freq_dist, hv, send_osc_eq]⟩)
  | resonator_balance value =>
    rcases hv : ResonatorBalanceInput.validate value with e | p
    · exact Or.inl ⟨e, fun st => by simp [runCall, polynodes_resonator_balance, hv]⟩
    · exact Or.inr (Or.inr ⟨"/polynodes/ResoBalance", p, fun st => by
        simp [runCall, polynodes_resonator_balance, hv, send_osc_eq]⟩)
  | cuboid_switch cube state =>
    rcases hv : CuboidArgs.validate cube state with e | p
    · exact Or.inl ⟨e, fun st => by simp [runCall, polynodes_cuboid_switch, hv]⟩
    · exact Or.inr (Or.inr ⟨cuboid_addr p.1, p.2, fun st => by
        simp [runCall, polynodes_cuboid_switch, hv, send_osc_eq]⟩)
  | cuboid_return_level level value =>
    rcases hv : CubeReturnInput.validate level value with e | p
    · exact Or.inl ⟨e, fun st => by simp [runCall, polynodes_cuboid_return_level, hv]⟩
    · exact Or.inr (Or.inr ⟨cube_return_addr_map p.level, p.value, fun st => by
        simp [runCall, polynodes_cuboid_return_level, hv, send_osc_eq]⟩)
  | isomorph_switch state =>
    rcases hv : SwitchInput.validate state with e | p
    · exact Or.inl ⟨e, fun st => by simp [runCall, polynodes_isomorph_switch, hv]⟩
    · exact Or.inr (Or.inr ⟨"/polynodes/isomorphsw", p, fun st => by
        simp [runCall, polynodes_isomorph_switch, hv, send_osc_eq]⟩)
  | isomorph_mod_depth param value =>
    rcases hv : IsomorphModInput.validate param value with e | p
    · exact Or.inl ⟨e, fun st => by simp [runCall, polynodes_isomorph_mod_depth, hv]⟩
    · exact Or.inr (Or.inr ⟨isom_modr_addr_map p.param, p.value, fun st => by
        simp [runCall, polynodes_isomorph_mod_depth, hv, send_osc_eq]⟩)
  | isomorph_bp_center value =>
    rcases hv : IsomorphBPCenterInput.validate value with e | p
    · exact Or.inl ⟨e, fun st => by simp [runCall, polynodes_isomorph_bp_center, hv]⟩
    · exact Or.inr (Or.inr ⟨"/polynodes/isombpcent", p, fun st => by
        simp [runCall, polynodes_isomorph_bp_center, hv, send_osc_eq]⟩)
  | navigation_random_trigger state =>
    rcases hv : SwitchInput.validate state with e | p
    · exact Or.inl ⟨e, fun st => by simp [runCall, polynodes_navigation_random_trigger, hv]⟩
    · exact Or.inr (Or.inr ⟨"/polynodes/navigrndtrig", p, fun st => by
        simp [runCall, polynodes_navigation_random_trigger, hv, send_osc_eq]⟩)
  | rearrange_trigger state =>
    rcases hv : SwitchInput.validate state with e | p
    · exact Or.inl ⟨e, fun st => by simp [runCall, polynodes_rearrange_trigger, hv]⟩
    · exact Or.inr (Or.inr ⟨"/polynodes/rearrtrig", p, fun st => by
        simp [runCall, polynodes_rearrange_trigger, hv, send_osc_eq]⟩)
  | poly_gates_switch state =>
    rcases hv : SwitchInput.validate state with e | p
    · exact Or.inl ⟨e, fun st => by simp [runCall, polynodes_poly_gates_switch, hv]⟩
    · exact Or.inr (Or.inr ⟨"/polynodes/polygatessw", p, fun st => by
        simp [runCall, polynodes_poly_gates_switch, hv, send_osc_eq]⟩)
  | tuning_pb_switch state =>
    rcases hv : SwitchInput.validate state with e | p
    · exact Or.inl ⟨e, fun st => by simp [runCall, polynodes_tuning_pb_switch, hv]⟩
    · exact Or.inr (Or.inr ⟨"/polynodes/tuningpbsw", p, fun st => by
        simp [runCall, polynodes_tuning_pb_switch, hv, send_osc_eq]⟩)
  | tuning_res_switch state =>
    rcases hv : SwitchInput.validate state with e | p
    · exact Or.inl ⟨e, fun st => by simp [runCall, polynodes_tuning_res_switch, hv]⟩
    · exact Or.inr (Or.inr ⟨"/polynodes/tuningressw", p, fun st => by
        simp [runCall, polynodes_tuning_res_switch, hv, send_osc_eq]⟩)
  | camera_zoom value =>
    rcases hv : CameraZoomInput.validate value with e | p
    · exact Or.inl ⟨e, fun st => by simp [runCall, polynodes_camera_zoom, hv]⟩
    · exact Or.inr (Or.inr ⟨"/polynodes/camzoom", p, fun st => by
        simp [runCall, polynodes_camera_zoom, hv, send_osc_eq]⟩)
  | camera_rotate value =>
    rcases hv : CameraRotateInput.validate value with e | p
    · exact Or.inl ⟨e, fun st => by simp [runCall, polynodes_camera_rotate, hv]⟩
    · exact Or.inr (Or.inr ⟨"/polynodes/camrotate", p, fun st => by
        simp [runCall, polynodes_camera_rotate, hv, send_osc_eq]⟩)
  | set_bpm value =>
    rcases hv : BPMInput.validate value with e | p
    · exact Or.inl ⟨e, fun st => by simp [runCall, polynodes_set_bpm, hv]⟩
    · exact Or.inr (Or.inr ⟨"/polynodes/seqbpm", p, fun st => by
        simp [runCall, polynodes_set_bpm, hv, send_osc_eq]⟩)
  | isomorph_mod_switch param state =>
    rcases hv : checkRange state 0 1 with e | s
    · exact Or.inl ⟨e, fun st => by simp [runCall, polynodes_isomorph_mod_switch, hv]⟩
    · rcases hp : validate_param param with e2 | q
      · exact Or.inr (Or.inl ⟨.errorPayload paramMsg, fun st => by
          simp [runCall, polynodes_isomorph_mod_switch, hv, hp]⟩)
      · exact Or.inr (Or.inr ⟨isom_sw_addr_map q, s, fun st => by
          simp [runCall, polynodes_isomorph_mod_switch, hv, hp, send_osc_eq]⟩)
  | list_osc_addresses =>
    exact Or.inr (Or.inl ⟨.addressList osc_addresses, fun st => rfl⟩)
  | send_raw_osc address value =>
    exact Or.inr (Or.inr ⟨address, value, fun st => by
      simp [runCall, polynodes_send_raw_osc, send_osc_eq]⟩)

/-- C9: re-issuing an accepted call from the state the first call left
behind forwards the identical (address, value) datagram again, returns the
identical acknowledgment, and leaves the state exactly as it was: the only
shared state is the lazily created client, already cached after the first
call. -/
theorem claim_C9_repeat_call (c : OpCall) (st : ServerState) (r : ToolResult)
    (d : List Datagram) (st' : ServerState)
    (h : runCall c st = .ok (r, d, st')) : runCall c st' = .ok (r, d, st') := by
  rcases runCall_shape c with ⟨e, he⟩ | ⟨out, ho⟩ | ⟨a, v, hs⟩
  · rw [he st] at h
    simp at h
  · rw [ho st] at h
    simp only [Except.ok.injEq, Prod.mk.injEq] at h
    obtain ⟨rfl, rfl, rfl⟩ := h
    exact ho st
  · rw [hs st] at h
    simp only [Except.ok.injEq, Prod.mk.injEq] at h
    obtain ⟨rfl, rfl, rfl⟩ := h
    simpa [clientOf_some] using hs (some (clientOf st))

/-- Witness for C9: replaying play_stop from the state its first run (from
the empty state) produced. -/
theorem claim_C9_repeat_call_witness :
    runCall (.play_stop 1) (some ⟨"127.0.0.1", 4799⟩) =
      .ok (.sent ⟨"sent", "/polynodes/playstartstop", 1⟩,
           [⟨⟨"127.0.0.1", 4799⟩, "/polynodes/playstartstop", 1⟩],
           some ⟨"127.0.0.1", 4799⟩) :=
  claim_C9_repeat_call (.play_stop 1) none _ _ _ (by decide)

/-- From a state holding no client or the default client, every datagram a
sequence of calls emits goes through the default client. -/
theorem runSeq_default_clients (cs : List OpCall) (st : ServerState)
    (hst : st = none ∨ st = some ⟨DEFAULT_HOST, DEFAULT_PORT⟩) :
    ∀ dg ∈ (runSeq cs st).1, dg.client = ⟨DEFAULT_HOST, DEFAULT_PORT⟩ := by
  induction cs generalizing st with
  | nil =>
    intro dg hdg
    simp [runSeq] at hdg
  | cons c cs ih =>
    intro dg hdg
    rcases runCall_shape c with ⟨e, he⟩ | ⟨out, ho⟩ | ⟨a, v, hs⟩
    · rw [runSeq, he st] at hdg
      exact ih st hst dg hdg
    · rw [runSeq, ho st] at hdg
      simp only [List.nil_append] at hdg
      exact ih st hst dg hdg
    · rw [runSeq, hs st] at hdg
      simp only [List.cons_append, List.nil_append, List.mem_cons] at hdg
      have hcl : clientOf st = ⟨DEFAULT_HOST, DEFAULT_PORT⟩ := by
        rcases hst with rfl | rfl <;> rfl
      rcases hdg with rfl | hdg
      · exact hcl
      · exact ih (some (clientOf st)) (Or.inr (by rw [hcl])) dg hdg

/-- C10: every outbound message is sent through the client created with
host 127.0.0.1 and port 4799.  _get_client, once the module-level client
exists, returns the cached instance and ignores its host and port
parameters entirely; _send_osc always calls it with the defaults, so from
the initial empty state no sequence of calls can emit a datagram through
any other destination. -/
theorem claim_C10_fixed_destination :
    (∀ (k : Client) (host : String) (port : Nat), get_client (some k) host port = (k, some k))
  ∧ (∀ (cs : List OpCall) (dg : Datagram), dg ∈ (runSeq cs none).1 →
      dg.client = ⟨DEFAULT_HOST, DEFAULT_PORT⟩) :=
  ⟨fun _ _ _ => rfl, fun cs dg hdg => runSeq_default_clients cs none (Or.inl rfl) dg hdg⟩

/-- Witness for C10 on a two-call sequence through the raw sender. -/
theorem claim_C10_fixed_destination_witness :
    (Datagram.mk ⟨"127.0.0.1", 4799⟩ "/x" 2).client = ⟨DEFAULT_HOST, DEFAULT_PORT⟩ :=
  claim_C10_fixed_destination.2 [.send_raw_osc "/x" 2, .play_stop 0] ⟨⟨"127.0.0.1", 4799⟩, "/x", 2⟩
    (by decide)
